import Mathlib

/-!
Verification development for the gityping stub generator
(`src/gityping/gityping.py` and `src/gityping/const.py`).

The Python source is shallowly embedded below.  Python strings become
`String`, Python `None`-or-class-or-string annotation values become the
`PyType` inductive, GObject-introspection metadata (`TypeInfo`,
`CallableInfo`, argument records) becomes the mutual `GITypeInfo` family,
and runtime attribute values become `PyValue`.  Functions that can raise
return `Except String`; the process-global `current_gi_imports` set is
threaded explicitly as a list of module names (`Imports`) and the
process-global `current_stub_module` is threaded as the current module
name string, since within one generation run it is fixed.
-/

/-- Python `str.startswith`: prefix test on the character sequence. -/
def pyStartswith (s p : String) : Bool := p.data.isPrefixOf s.data

/-- Python `str.endswith`: suffix test on the character sequence. -/
def pyEndswith (s p : String) : Bool := p.data.isSuffixOf s.data

/-- Python identifier-character test (ASCII fragment of `str.isidentifier`). -/
def pyIsIdentChar (c : Char) : Bool := c.isAlphanum || c = '_'

/-- Python `str.isidentifier` (ASCII fragment): nonempty, first char a letter
or underscore, remaining chars alphanumeric or underscore. -/
def pyIsIdentifier (s : String) : Bool :=
  match s.data with
  | [] => false
  | c :: cs => (c.isAlpha || c = '_') && cs.all pyIsIdentChar

/-- Python `str.isupper` (ASCII fragment): at least one cased character and
no lowercase character. -/
def pyIsUpper (s : String) : Bool :=
  s.data.any (fun c => c.isAlpha) && s.data.all (fun c => !c.isLower)

/-- Python `str.join` over a list of strings. -/
def pyJoin (sep : String) : List String → String
  | [] => ""
  | [a] => a
  | a :: b :: rest => a ++ sep ++ pyJoin sep (b :: rest)

/-- Python `str.splitlines` restricted to the newline separator: split on
newline characters, without a trailing empty chunk for a trailing newline. -/
def pySplitlinesAux : List Char → List (List Char)
  | [] => [[]]
  | c :: rest =>
    if c = '\n' then [] :: pySplitlinesAux rest
    else
      match pySplitlinesAux rest with
      | [] => [[c]]
      | l :: ls => (c :: l) :: ls

/-- Python `str.splitlines` on our stub text (only `\n` separators occur). -/
def pySplitlines (s : String) : List String :=
  let chunks := (pySplitlinesAux s.data).map (fun l => String.mk l)
  match chunks.getLast? with
  | some "" => chunks.dropLast
  | _ => chunks

/-- Truthiness of Python `line.strip()`: true when the line has a
non-whitespace character. -/
def pyStripNonempty (s : String) : Bool := s.data.any (fun c => !c.isWhitespace)

/-- Python `str.rstrip`: drop trailing whitespace. -/
def pyRstrip (s : String) : String :=
  String.mk ((s.data.reverse.dropWhile Char.isWhitespace).reverse)

/-- Lexicographic code-point comparison on character lists (the order
Python `sorted` uses on strings). -/
def charListLe : List Char → List Char → Bool
  | [], _ => true
  | _ :: _, [] => false
  | c :: cs, d :: ds =>
    if c.toNat < d.toNat then true
    else if d.toNat < c.toNat then false
    else charListLe cs ds

/-- Python string comparison `a <= b` (lexicographic by code point). -/
def pyStrLe (a b : String) : Bool := charListLe a.data b.data

/-- Insertion step of Python `sorted` over strings. -/
def insertSorted (x : String) : List String → List String
  | [] => [x]
  | y :: ys => if pyStrLe x y then x :: y :: ys else y :: insertSorted x ys

/-- Python `sorted` over strings (insertion sort; stable, lexicographic). -/
def pySorted (l : List String) : List String := l.foldr insertSorted []

/-- The code-point comparison is total. -/
theorem charListLe_total : ∀ a b : List Char,
    charListLe a b = true ∨ charListLe b a = true
  | [], _ => Or.inl rfl
  | _ :: _, [] => Or.inr rfl
  | c :: cs, d :: ds => by
    unfold charListLe
    by_cases h1 : c.toNat < d.toNat
    · left
      rw [if_pos h1]
    · by_cases h2 : d.toNat < c.toNat
      · right
        rw [if_pos h2]
      · rw [if_neg h1, if_neg h2, if_neg h2, if_neg h1]
        exact charListLe_total cs ds

/-- The code-point comparison is transitive. -/
theorem charListLe_trans : ∀ a b c : List Char,
    charListLe a b = true → charListLe b c = true → charListLe a c = true
  | [], _, _, _, _ => rfl
  | _ :: _, [], _, h1, _ => by simp [charListLe] at h1
  | _ :: _, _ :: _, [], _, h2 => by simp [charListLe] at h2
  | x :: xs, y :: ys, z :: zs, h1, h2 => by
    unfold charListLe at *
    by_cases hxy : x.toNat < y.toNat
    · by_cases hyz : y.toNat < z.toNat
      · rw [if_pos (by omega : x.toNat < z.toNat)]
      · by_cases hzy : z.toNat < y.toNat
        · rw [if_neg hyz, if_pos hzy] at h2
          exact absurd h2 (by simp)
        · rw [if_pos (by omega : x.toNat < z.toNat)]
    · by_cases hyx : y.toNat < x.toNat
      · rw [if_neg hxy, if_pos hyx] at h1
        exact absurd h1 (by simp)
      · by_cases hyz : y.toNat < z.toNat
        · rw [if_pos (by omega : x.toNat < z.toNat)]
        · by_cases hzy : z.toNat < y.toNat
          · rw [if_neg hyz, if_pos hzy] at h2
            exact absurd h2 (by simp)
          · rw [if_neg hxy, if_neg hyx] at h1
            rw [if_neg hyz, if_neg hzy] at h2
            rw [if_neg (by omega : ¬x.toNat < z.toNat),
              if_neg (by omega : ¬z.toNat < x.toNat)]
            exact charListLe_trans xs ys zs h1 h2

/-- String comparison is total. -/
theorem pyStrLe_total (a b : String) : pyStrLe a b = true ∨ pyStrLe b a = true :=
  charListLe_total a.data b.data

/-- String comparison is transitive. -/
theorem pyStrLe_trans {a b c : String} (h1 : pyStrLe a b = true)
    (h2 : pyStrLe b c = true) : pyStrLe a c = true :=
  charListLe_trans a.data b.data c.data h1 h2

/-- A failed comparison flips. -/
theorem pyStrLe_of_not (a b : String) (h : ¬ pyStrLe a b = true) :
    pyStrLe b a = true := by
  rcases pyStrLe_total a b with h1 | h1
  · exact absurd h1 h
  · exact h1

/-- The process-global `current_gi_imports` set, threaded explicitly.  It is
kept as a duplicate-free list; `setAdd` is Python `set.add`. -/
abbrev Imports := List String

/-- Python `set.add` on the threaded import set: append if not present. -/
def setAdd (s : Imports) (m : String) : Imports :=
  if s.contains m then s else s ++ [m]

/-- A Python type-annotation value as used by the source: `None`, a Python
class object (identified by its `__name__`), or an annotation string. -/
inductive PyType where
  | pynone : PyType
  | pyclass (name : String) : PyType
  | pystr (s : String) : PyType
deriving DecidableEq, Repr

/-- Composition of the source's `format_pytype` (gityping.py:355-358, classes
become their `__name__`) with the `str()` rendering performed by the
`"...{}...".format(...)` call sites, under which Python `None` prints as
`"None"`.  The `pynone` case is reachable only at the `typing.List` call
site (gityping.py:222); the tuple call site filters `None` out first. -/
def format_pytype : PyType → String
  | .pynone => "None"
  | .pyclass n => n
  | .pystr s => s

/-- Abstraction of a Python class object as consumed by `format_module` /
`format_cls_name`: its `__module__`, its `__name__`, and (when it carries
GObject-introspection info) the info's `(get_namespace, get_name)` pair. -/
structure ClsRef where
  module : String
  name : String
  giNS : Option (String × String)
deriving DecidableEq, Repr

/-- gityping.py:109-115 `get_effective_module`: rewrite `gi.overrides.*`
module names to `gi.repository.*`. -/
def get_effective_module (module : String) : String :=
  if pyStartswith module "gi.overrides" then
    "gi.repository" ++ String.mk (module.data.drop "gi.overrides".length)
  else module

/-- gityping.py:118-126 `format_cls_name`: the historically distinct
`GObject.Object` is collapsed to the canonical `GObject`. -/
def format_cls_name (cls : ClsRef) : String :=
  match cls.giNS with
  | some (ns, n) => if ns = "GObject" && n = "Object" then "GObject" else cls.name
  | none => cls.name

/-- gityping.py:129-136 `format_module`: a reference is unqualified iff the
referenced class's effective module equals the current module; otherwise it
is `module.name` and the module is added to the import set. -/
def format_module (cm : String) (cls : ClsRef) (imp : Imports) : String × Imports :=
  let module_name := get_effective_module cls.module
  let cls_name := format_cls_name cls
  if module_name = cm then (cls_name, imp)
  else (module_name ++ "." ++ cls_name, setAdd imp module_name)

/-- gityping.py:139-150 `format_gi_class`: class header line, naming the
parent (routed through `format_module`) when one is known. -/
def format_gi_class (cm : String) (name : String) (giNS : Option (String × String))
    (parent : Option ClsRef) (imp : Imports) : String × Imports :=
  let n := format_cls_name ⟨"", name, giNS⟩
  match parent with
  | some p =>
    let (pm, imp') := format_module cm p imp
    ("class " ++ n ++ "(" ++ pm ++ "):", imp')
  | none => ("class " ++ n ++ ":", imp)

/-- `const.py` `ATTR_IGNORE_LIST`: attribute names never annotated. -/
def ATTR_IGNORE_LIST : List String := ["new", "priv", "widget"]

/-- `const.py` `PYGI_STATIC_BINDINGS`: classes whose attribute errors are
silently skipped (the skip itself is identical either way). -/
def PYGI_STATIC_BINDINGS : List String := ["Error", "OptionContext", "OptionGroup"]

/-- Modelled from the spec: `PYGI_BOOL_OVERRIDE_FN`, the qualified-name
prefix identifying pygobject's boolean-stripping wrapper (spec 4.3 step 1,
"a known boolean-stripping wrapper").  The constant is imported from
`gityping/const.py` at gityping.py:26-30 but its definition is absent from
the `const.py` in `src/`. -/
def PYGI_BOOL_OVERRIDE_FN : String := "strip_boolean_result"

/-- gityping.py:36-58 `GTypeTag`: the recognized GObject-introspection type
tags (an `IntEnum` whose members mirror `gi._gi.TypeTag`). -/
inductive GTypeTag where
  | ARRAY | BOOLEAN | DOUBLE | ERROR | FILENAME | FLOAT | GHASH | GLIST
  | GSLIST | GTYPE | INT16 | INT32 | INT64 | INT8 | INTERFACE | UINT16
  | UINT32 | UINT64 | UINT8 | UNICHAR | UTF8 | VOID
deriving DecidableEq, Repr

/-- Numeric values of `gi._gi.TypeTag` (GI_TYPE_TAG_*), used to interpret a
raw tag integer as a `GTypeTag` enum member. -/
def GTypeTag.ofNat? : Nat → Option GTypeTag
  | 0 => some .VOID
  | 1 => some .BOOLEAN
  | 2 => some .INT8
  | 3 => some .UINT8
  | 4 => some .INT16
  | 5 => some .UINT16
  | 6 => some .INT32
  | 7 => some .UINT32
  | 8 => some .INT64
  | 9 => some .UINT64
  | 10 => some .FLOAT
  | 11 => some .DOUBLE
  | 12 => some .GTYPE
  | 13 => some .UTF8
  | 14 => some .FILENAME
  | 15 => some .ARRAY
  | 16 => some .INTERFACE
  | 17 => some .GLIST
  | 18 => some .GSLIST
  | 19 => some .GHASH
  | 20 => some .ERROR
  | 21 => some .UNICHAR
  | _ => none

/-- gityping.py:65-93 `GTypeTag.as_pytype`: the fixed tag-to-annotation
mapping; total over the enum, `None` only for `VOID`. -/
def GTypeTag.as_pytype : GTypeTag → PyType
  | .ARRAY => .pyclass "list"
  | .BOOLEAN => .pyclass "bool"
  | .DOUBLE => .pyclass "float"
  | .ERROR => .pystr "gi.repository.GLib.Error"
  | .FILENAME => .pyclass "str"
  | .FLOAT => .pyclass "float"
  | .GHASH => .pyclass "dict"
  | .GLIST => .pyclass "list"
  | .GSLIST => .pyclass "list"
  | .GTYPE => .pystr "gi.repository.GObject.GType"
  | .INT16 => .pyclass "int"
  | .INT32 => .pyclass "int"
  | .INT64 => .pyclass "int"
  | .INT8 => .pyclass "int"
  | .INTERFACE => .pystr "typing.Any"
  | .UINT16 => .pyclass "int"
  | .UINT32 => .pyclass "int"
  | .UINT64 => .pyclass "int"
  | .UINT8 => .pyclass "int"
  | .UNICHAR => .pyclass "str"
  | .UTF8 => .pyclass "str"
  | .VOID => .pynone

/-- Direction of a callable argument (`gi._gi.Direction`). -/
inductive Direction where
  | dirIn | dirOut | dirInout
deriving DecidableEq, Repr

mutual

/-- GObject-introspection `TypeInfo` as consumed by `get_typeinfo`: the raw
numeric tag (`get_tag()`), `is_pointer()`, the entity behind an interface
tag (`get_interface()`), and the first parameter type for container tags
(`get_param_type(0)`, absent when the provider supplies none). -/
inductive GITypeInfo where
  | mk (tag : Nat) (is_pointer : Bool) (iface : GIIface) (param0 : Option GITypeInfo) : GITypeInfo

/-- The possible results of `TypeInfo.get_interface()`: nothing, a
`CallableInfo`, a `RegisteredTypeInfo` (abstracted to the class-reference
data `format_module` consumes), or some other entity. -/
inductive GIIface where
  | noIface : GIIface
  | callableIface (c : GICallable) : GIIface
  | registeredIface (cls : ClsRef) : GIIface
  | otherIface : GIIface

/-- GObject-introspection `CallableInfo` as consumed by
`details_from_funcinfo`: whether the object is a `VFuncInfo`, whether it is
a `FunctionInfo` (only `FunctionInfo` carries the `is_method` /
`is_constructor` attributes - on any other callable those raise
`AttributeError`, gityping.py:265-275), the two flags themselves, whether
`get_container()` is non-None, the return `TypeInfo` and the arguments. -/
inductive GICallable where
  | mk (is_vfunc : Bool) (is_function_info : Bool) (is_method : Bool)
       (is_constructor : Bool) (has_container : Bool)
       (ret : GITypeInfo) (args : GIArgList) : GICallable

/-- The ordered argument records of a callable: `get_name()`,
`get_type()`, `get_direction()` for each argument. -/
inductive GIArgList where
  | anil : GIArgList
  | acons (name : String) (ty : GITypeInfo) (dir : Direction) (rest : GIArgList) : GIArgList

end

/-- Projection: the raw tag of a `TypeInfo` (`get_tag()`). -/
def GITypeInfo.tag : GITypeInfo → Nat
  | .mk t _ _ _ => t

/-- Projection: `TypeInfo.is_pointer()`. -/
def GITypeInfo.is_pointer : GITypeInfo → Bool
  | .mk _ p _ _ => p

/-- gityping.py:60-63 `GTypeTag.from_typeinfo`: interpret the raw tag as an
enum member; a value outside the enum raises `ValueError` (Python
`cls(type_tag)` on an `IntEnum`). -/
def GTypeTag.from_typeinfo (ti : GITypeInfo) : Except String GTypeTag :=
  match GTypeTag.ofNat? ti.tag with
  | some g => .ok g
  | none => .error ("ValueError: " ++ toString ti.tag ++ " is not a valid GTypeTag")

/-- An `inspect.Parameter` as built by the source: name, annotation
(`none` models `inspect.Parameter.empty`, `some .pynone` models an explicit
`None` annotation) and default (`none` = no default; the string is the
default's rendering). -/
structure PyParam where
  name : String
  annotation : Option PyType
  default : Option String
deriving DecidableEq, Repr

/-- gityping.py:173-184 `format_annotation` (local to `get_typeinfo`):
`None` annotations render as `typing.Any`; class annotations render as
their `__name__` (note `inspect.Parameter.empty` is itself a class, so an
empty annotation renders as its class name `_empty`; the source's
`isinstance(annotation, inspect.Parameter.empty)` test is never true); the
`GObject.Object`/`GObject.GObject` alias is normalised; other strings pass
through. -/
def format_annotation : Option PyType → String
  | some .pynone => "typing.Any"
  | none => "_empty"
  | some (.pyclass n) => n
  | some (.pystr s) =>
    if s = "gi.repository.GObject.Object" then "gi.repository.GObject.GObject" else s

/-- gityping.py:267-270: `needs_self` is true when the callable is a
`VFuncInfo` or a `FunctionInfo` whose `is_method()` holds; on any other
callable `is_method` raises `AttributeError`, caught to `False`. -/
def fn_needs_self : GICallable → Bool
  | .mk is_vfunc is_function_info is_method _ _ _ _ =>
    is_vfunc || (is_function_info && is_method)

/-- gityping.py:271-275: `is_static` is true when not `needs_self` and the
callable is a constructor or has a container; on a callable without the
`is_constructor` attribute (anything but a `FunctionInfo`) the lookup
raises `AttributeError`, caught to `False`. -/
def fn_is_static (f : GICallable) : Bool :=
  match f with
  | .mk _ is_function_info _ is_constructor has_container _ _ =>
    !(fn_needs_self f) && (is_function_info && (is_constructor || has_container))

/-- gityping.py:314-321: composite return construction.  With exactly one
collected entry that entry is the return descriptor; otherwise `None`
entries are dropped and the descriptor is the `typing.Tuple[...]` string of
the remaining entries (note the `None`-dropping happens only in the
multiple-entry branch). -/
def composite_return (return_types : List PyType) : PyType :=
  if return_types.length = 1 then return_types.headD .pynone
  else
    .pystr ("typing.Tuple[" ++
      pyJoin ", " (((return_types.filter (fun r => r ≠ .pynone)).map format_pytype)) ++ "]")

mutual

/-- gityping.py:153-233 `get_typeinfo`: obtain a python-style type
annotation for the given `TypeInfo`.  For an interface tag referencing a
`CallableInfo` the source calls `make_signature(iface)`, whose
`CallableInfo` branch is exactly `details_from_funcinfo` with
`strip_bool_result=False`; a `RegisteredTypeInfo` interface routes through
`format_module`; any other interface falls through to the fixed tag
mapping.  Container tags recurse into `get_param_type(0)` (absent element
metadata is an error, as the provider guarantees one for container tags).
A pointer-shaped `VOID` becomes the opaque `typing.Any`.  The source's
`if pytype is None and type_tag != GTypeTag.VOID` print (gityping.py:230-231)
is a diagnostic with no effect on the result: `as_pytype` maps only `VOID`
to `None`, so the condition never holds. -/
def get_typeinfo (cm : String) (ti : GITypeInfo) (imp : Imports) :
    Except String (PyType × Imports) :=
  match ti with
  | .mk tag is_ptr iface param0 =>
    match GTypeTag.from_typeinfo (.mk tag is_ptr iface param0) with
    | .error e => .error e
    | .ok type_tag =>
      match type_tag, iface with
      | .INTERFACE, .callableIface c =>
        match details_from_funcinfo cm false c imp with
        | .error e => .error e
        | .ok ((_preamble, params, return_type), imp1) =>
          .ok (.pystr ("typing.Callable[[" ++
              pyJoin ", " (params.map (fun p => format_annotation p.annotation)) ++
              "], " ++ format_annotation (some return_type) ++ "]"), imp1)
      | .INTERFACE, .registeredIface cls =>
        let (s, imp1) := format_module cm cls imp
        .ok (.pystr s, imp1)
      | tg, _ =>
        let pytype := tg.as_pytype
        if pytype = PyType.pyclass "list" then
          match param0 with
          | some pt =>
            match get_typeinfo cm pt imp with
            | .error e => .error e
            | .ok (list_type, imp1) =>
              .ok (.pystr ("typing.List[" ++ format_pytype list_type ++ "]"), imp1)
          | none => .error "TypeError: missing element type for container tag"
        else
          let pytype := if tg = GTypeTag.VOID && is_ptr then PyType.pystr "typing.Any"
            else pytype
          .ok (pytype, imp)

/-- gityping.py:236-258 `get_argument_info`: resolve the argument's type
annotation and return it with the name and direction.  The source's
missing-annotation print (gityping.py:244-252) is a diagnostic only: the
annotation is `None` only for the `VOID` tag, for which the print is
guarded off, so the result is unchanged either way. -/
def get_argument_info (cm : String) (name : String) (ty : GITypeInfo) (dir : Direction)
    (imp : Imports) : Except String ((String × PyType × Direction) × Imports) :=
  match get_typeinfo cm ty imp with
  | .error e => .error e
  | .ok ( type_annotation, imp1) => .ok ((name, type_annotation, dir), imp1)

/-- gityping.py:291-303: the argument loop of `details_from_funcinfo`.
IN/INOUT arguments become parameters in declaration order; everything else
(OUT) has its annotation appended to the return collection, in declaration
order. -/
def process_arguments (cm : String) (args : GIArgList) (imp : Imports) :
    Except String ((List PyParam × List PyType) × Imports) :=
  match args with
  | .anil => .ok (([], []), imp)
  | .acons name ty dir rest =>
    match get_argument_info cm name ty dir imp with
    | .error e => .error e
    | .ok ((n, annotation, d), imp1) =>
      match process_arguments cm rest imp1 with
      | .error e => .error e
      | .ok ((ps, rs), imp2) =>
        match d with
        | .dirIn | .dirInout => .ok ((⟨n, some annotation, none⟩ :: ps, rs), imp2)
        | .dirOut => .ok ((ps, annotation :: rs), imp2)

/-- gityping.py:261-323 `details_from_funcinfo`: calling-convention flags,
the synthetic `self` parameter, direction routing of the arguments, the
optional boolean-result stripping (both failure modes raise), and the
composite return construction. -/
def details_from_funcinfo (cm : String) (strip_bool_result : Bool) (f : GICallable)
    (imp : Imports) : Except String ((String × List PyParam × PyType) × Imports) :=
  match f with
  | .mk is_vfunc is_function_info is_method is_constructor has_container ret args =>
    let needs_self := fn_needs_self (.mk is_vfunc is_function_info is_method
      is_constructor has_container ret args)
    let is_static := fn_is_static (.mk is_vfunc is_function_info is_method
      is_constructor has_container ret args)
    let preamble := if is_static then "@staticmethod" else ""
    let parameters : List PyParam := if needs_self then [⟨"self", none, none⟩] else []
    match get_typeinfo cm ret imp with
    | .error e => .error e
    | .ok (ret_ann, imp1) =>
      match process_arguments cm args imp1 with
      | .error e => .error e
      | .ok ((arg_params, out_types), imp2) =>
        let return_types := ret_ann :: out_types
        if strip_bool_result then
          match return_types with
          | r0 :: rest =>
            if r0 ≠ PyType.pyclass "bool" then
              .error "Tried to strip a non-boolean return type"
            else if rest.isEmpty then
              .error "No returns left after boolean stripping"
            else .ok ((preamble, parameters ++ arg_params, composite_return rest), imp2)
          | [] => .error "unreachable: the collection always starts with the return type"
        else
          .ok ((preamble, parameters ++ arg_params, composite_return return_types), imp2)

end

/-- Projection: the return `TypeInfo` of a callable (`get_return_type()`). -/
def GICallable.ret : GICallable → GITypeInfo
  | .mk _ _ _ _ _ r _ => r

/-- Projection: the argument records of a callable (`get_arguments()`). -/
def GICallable.args : GICallable → GIArgList
  | .mk _ _ _ _ _ _ a => a

/-- The resolved `(name, annotation, direction)` records of a callable's
arguments, in declaration order, before any direction routing (the
`get_argument_info` results seen by the loop at gityping.py:291-303). -/
def resolve_arguments (cm : String) : GIArgList → Imports →
    Except String (List (String × PyType × Direction) × Imports)
  | .anil, imp => .ok ([], imp)
  | .acons name ty dir rest, imp =>
    match get_argument_info cm name ty dir imp with
    | .error e => .error e
    | .ok (t, imp1) =>
      match resolve_arguments cm rest imp1 with
      | .error e => .error e
      | .ok (l, imp2) => .ok (t :: l, imp2)

/-- The parameters produced from resolved argument records: IN and INOUT
arguments, in order, as annotated `inspect.Parameter`s. -/
def in_params (l : List (String × PyType × Direction)) : List PyParam :=
  l.filterMap (fun t =>
    match t with
    | (n, a, .dirIn) => some ⟨n, some a, none⟩
    | (n, a, .dirInout) => some ⟨n, some a, none⟩
    | (_, _, .dirOut) => none)

/-- The annotations appended to the return collection from resolved
argument records: OUT arguments only, in order. -/
def out_returns (l : List (String × PyType × Direction)) : List PyType :=
  l.filterMap (fun t =>
    match t with
    | (_, a, .dirOut) => some a
    | _ => none)

/-- The argument loop splits the resolved argument records by direction:
IN/INOUT records become parameters and OUT records feed the return
collection, both in declaration order. -/
theorem process_arguments_eq (cm : String) : ∀ (args : GIArgList) (imp : Imports),
    process_arguments cm args imp =
      (resolve_arguments cm args imp).map (fun p => ((in_params p.1, out_returns p.1), p.2))
  | .anil, imp => by
    simp [process_arguments, resolve_arguments, in_params, out_returns, Except.map]
  | .acons name ty dir rest, imp => by
    rw [process_arguments, resolve_arguments]
    cases h : get_argument_info cm name ty dir imp with
    | error e => simp [Except.map]
    | ok t =>
      obtain ⟨⟨n, a, d⟩, imp1⟩ := t
      dsimp only
      rw [process_arguments_eq cm rest imp1]
      cases h2 : resolve_arguments cm rest imp1 with
      | error e => simp [Except.map]
      | ok p =>
        obtain ⟨l, imp2⟩ := p
        cases d <;> simp [Except.map, in_params, out_returns]

/-- Evaluation of `details_from_funcinfo` in terms of the resolved return
annotation and argument records: the preamble comes from `fn_is_static`,
the parameter list is the optional synthetic `self` followed by the
IN/INOUT parameters, the return collection is the return annotation
followed by the OUT annotations, boolean stripping raises on a non-boolean
head or an emptied collection, and the composite return is built by
`composite_return`. -/
theorem details_eval (cm : String) (strip : Bool) (f : GICallable) (imp : Imports)
    (r : PyType) (imp1 : Imports) (l : List (String × PyType × Direction)) (imp2 : Imports)
    (h1 : get_typeinfo cm f.ret imp = .ok (r, imp1))
    (h2 : resolve_arguments cm f.args imp1 = .ok (l, imp2)) :
    details_from_funcinfo cm strip f imp =
      (if strip then
        (if r ≠ PyType.pyclass "bool" then
          .error "Tried to strip a non-boolean return type"
         else if (out_returns l).isEmpty then
          .error "No returns left after boolean stripping"
         else .ok (((if fn_is_static f then "@staticmethod" else ""),
           (if fn_needs_self f then [⟨"self", none, none⟩] else []) ++ in_params l,
           composite_return (out_returns l)), imp2))
       else .ok (((if fn_is_static f then "@staticmethod" else ""),
         (if fn_needs_self f then [⟨"self", none, none⟩] else []) ++ in_params l,
         composite_return (r :: out_returns l)), imp2)) := by
  obtain ⟨v, fi, m, c, hc, ret, args⟩ := f
  simp only [GICallable.ret] at h1
  simp only [GICallable.args] at h2
  rw [details_from_funcinfo, h1]
  dsimp only
  rw [process_arguments_eq, h2]
  dsimp only [Except.map]

/-- Projection: whether the callable object is a `VFuncInfo`. -/
def GICallable.is_vfunc : GICallable → Bool
  | .mk v _ _ _ _ _ _ => v

/-- Projection: whether the callable object is a `FunctionInfo` (the only
callable kind carrying `is_method`/`is_constructor`). -/
def GICallable.is_function_info : GICallable → Bool
  | .mk _ fi _ _ _ _ _ => fi

/-- Projection: the value of `is_method()` where that attribute exists. -/
def GICallable.is_method : GICallable → Bool
  | .mk _ _ m _ _ _ _ => m

/-- Projection: the value of `is_constructor()` where that attribute exists. -/
def GICallable.is_constructor : GICallable → Bool
  | .mk _ _ _ c _ _ _ => c

/-- Projection: whether `get_container()` is non-None. -/
def GICallable.has_container : GICallable → Bool
  | .mk _ _ _ _ hc _ _ => hc

/-- A non-pointer `VOID` return `TypeInfo` (a void function). -/
def ti_void : GITypeInfo := .mk 0 false .noIface none

/-- A `BOOLEAN` `TypeInfo`. -/
def ti_bool : GITypeInfo := .mk 1 false .noIface none

/-- An `INT32` `TypeInfo`. -/
def ti_int32 : GITypeInfo := .mk 6 false .noIface none

/-- A `UTF8` (string) `TypeInfo`. -/
def ti_utf8 : GITypeInfo := .mk 13 false .noIface none

/-- A void function with a single boolean OUT argument: its return
collection is `[None, bool]`. -/
def fn_void_one_out : GICallable :=
  .mk false true false false false ti_void (.acons "result" ti_bool .dirOut .anil)

/-- The spec's composite-return rule as literally stated (spec 4.2 step 5 /
claim C1): first drop `none` entries, then unwrap a single survivor. -/
def spec_composite_return (return_types : List PyType) : PyType :=
  let remaining := return_types.filter (fun r => r ≠ .pynone)
  match remaining with
  | [] => .pynone
  | [r] => r
  | _ => .pystr ("typing.Tuple[" ++ pyJoin ", " (remaining.map format_pytype) ++ "]")

/-- Claim C1 is false on the code: for a void function with one boolean OUT
argument the return collection is `[None, bool]`; dropping the `none` entry
leaves exactly one entry, so the claim requires the bare entry `bool`, but
the code tests `len(return_types) == 1` before dropping `None` entries
(gityping.py:314) and produces the tuple descriptor `typing.Tuple[bool]`. -/
theorem c1_counterexample :
    details_from_funcinfo "Gdk" false fn_void_one_out [] =
      .ok (("", [], .pystr "typing.Tuple[bool]"), []) ∧
    spec_composite_return [PyType.pynone, PyType.pyclass "bool"] = PyType.pyclass "bool" ∧
    PyType.pystr "typing.Tuple[bool]" ≠ PyType.pyclass "bool" := by
  refine ⟨?_, by decide, by decide⟩
  simp [details_from_funcinfo, get_typeinfo, process_arguments, get_argument_info,
    fn_void_one_out, ti_void, ti_bool, GTypeTag.from_typeinfo, GTypeTag.ofNat?,
    GITypeInfo.tag, fn_needs_self, fn_is_static, GTypeTag.as_pytype, composite_return,
    format_pytype, pyJoin]

/-- Claim C1, amended: the code checks whether the return collection has
exactly one entry first - in that case the descriptor is that entry itself
(no tuple wrapping, and `none` survives for a void function without OUT
parameters); only with any other entry count are `none`-typed entries
dropped, and the descriptor is then always an ordered tuple of the
remaining entries in their original order, even when only one or zero
remain. -/
theorem c1_theorem (cm : String) (f : GICallable) (imp : Imports)
    (r : PyType) (imp1 : Imports) (l : List (String × PyType × Direction)) (imp2 : Imports)
    (h1 : get_typeinfo cm f.ret imp = .ok (r, imp1))
    (h2 : resolve_arguments cm f.args imp1 = .ok (l, imp2)) :
    details_from_funcinfo cm false f imp =
      .ok (((if fn_is_static f then "@staticmethod" else ""),
        (if fn_needs_self f then [⟨"self", none, none⟩] else []) ++ in_params l,
        (if (r :: out_returns l).length = 1 then r
         else .pystr ("typing.Tuple[" ++
           pyJoin ", " (((r :: out_returns l).filter (fun x => x ≠ .pynone)).map
             format_pytype) ++ "]"))), imp2) := by
  rw [details_eval cm false f imp r imp1 l imp2 h1 h2]
  simp only [if_false, Bool.false_eq_true, composite_return]
  cases ho : out_returns l with
  | nil => simp
  | cons a as => simp

/-- Witness for the amended C1: a string-returning function with one OUT
argument has a two-entry collection and yields the ordered tuple. -/
theorem c1_witness :
    details_from_funcinfo "Gdk" false
      (.mk false true false false false ti_utf8 (.acons "n" ti_int32 .dirOut .anil)) [] =
      .ok (("", [], .pystr "typing.Tuple[str, int]"), []) := by
  have h := c1_theorem "Gdk" (.mk false true false false false ti_utf8
      (.acons "n" ti_int32 .dirOut .anil)) []
    (.pyclass "str") [] [("n", .pyclass "int", .dirOut)] []
    (by simp [get_typeinfo, GICallable.ret, ti_utf8, GTypeTag.from_typeinfo,
      GTypeTag.ofNat?, GITypeInfo.tag, GTypeTag.as_pytype])
    (by simp [resolve_arguments, get_argument_info, get_typeinfo, GICallable.args,
      ti_int32, GTypeTag.from_typeinfo, GTypeTag.ofNat?, GITypeInfo.tag,
      GTypeTag.as_pytype])
  rw [h]
  simp [fn_is_static, fn_needs_self, in_params, out_returns, format_pytype, pyJoin]

/-- A boolean-returning function with a single INOUT int argument. -/
def fn_bool_one_inout : GICallable :=
  .mk false true false false false ti_bool (.acons "x" ti_int32 .dirInout .anil)

/-- The spec's return-collection rule as literally stated (spec 4.2 step 4 /
claim C2): the declared return type followed by the resolved type of every
OUT and INOUT argument, in declaration order. -/
def spec_return_collection (r : PyType) (l : List (String × PyType × Direction)) :
    List PyType :=
  r :: l.filterMap (fun t =>
    match t with
    | (_, a, .dirOut) => some a
    | (_, a, .dirInout) => some a
    | (_, _, .dirIn) => none)

/-- Claim C2 is false on the code: an INOUT argument is routed only to the
parameter list (gityping.py:294-301); its resolved type is never appended
to the return collection.  For a boolean function with one INOUT int
argument the claim's return collection is `[bool, int]` (which would make
the descriptor a two-entry tuple), but the code's argument loop collects no
OUT entries and the produced descriptor is the bare `bool`. -/
theorem c2_counterexample :
    process_arguments "Gdk" (.acons "x" ti_int32 .dirInout .anil) [] =
      .ok (([⟨"x", some (.pyclass "int"), none⟩], []), []) ∧
    details_from_funcinfo "Gdk" false fn_bool_one_inout [] =
      .ok (("", [⟨"x", some (.pyclass "int"), none⟩], .pyclass "bool"), []) ∧
    spec_return_collection (.pyclass "bool") [("x", .pyclass "int", .dirInout)] =
      [.pyclass "bool", .pyclass "int"] ∧
    ([] : List PyType) ≠ [.pyclass "int"] := by
  refine ⟨?_, ?_, by decide, by decide⟩
  · simp [process_arguments, get_argument_info, get_typeinfo, ti_int32,
      GTypeTag.from_typeinfo, GTypeTag.ofNat?, GITypeInfo.tag, GTypeTag.as_pytype]
  · simp [details_from_funcinfo, get_typeinfo, process_arguments, get_argument_info,
      fn_bool_one_inout, ti_bool, ti_int32, GTypeTag.from_typeinfo, GTypeTag.ofNat?,
      GITypeInfo.tag, fn_needs_self, fn_is_static, GTypeTag.as_pytype, composite_return]

/-- Claim C2, amended: each IN and INOUT argument becomes an ordered
parameter in declaration order, and the return collection is the declared
return type followed by the resolved type of every OUT argument only (INOUT
types are not collected), in declaration order. -/
theorem c2_theorem (cm : String) (f : GICallable) (imp : Imports)
    (r : PyType) (imp1 : Imports) (l : List (String × PyType × Direction)) (imp2 : Imports)
    (h1 : get_typeinfo cm f.ret imp = .ok (r, imp1))
    (h2 : resolve_arguments cm f.args imp1 = .ok (l, imp2)) :
    details_from_funcinfo cm false f imp =
      .ok (((if fn_is_static f then "@staticmethod" else ""),
        (if fn_needs_self f then [⟨"self", none, none⟩] else []) ++
          l.filterMap (fun t =>
            match t with
            | (n, a, .dirIn) => some ⟨n, some a, none⟩
            | (n, a, .dirInout) => some ⟨n, some a, none⟩
            | (_, _, .dirOut) => none),
        composite_return (r :: l.filterMap (fun t =>
          match t with
          | (_, a, .dirOut) => some a
          | _ => none))), imp2) := by
  rw [details_eval cm false f imp r imp1 l imp2 h1 h2]
  simp only [Bool.false_eq_true, if_false, in_params, out_returns]

/-- Witness for the amended C2: a void function with one IN, one OUT and one
INOUT argument; the IN and INOUT arguments become the two parameters and
only the OUT type joins the return collection. -/
theorem c2_witness :
    details_from_funcinfo "Gdk" false
      (.mk false true false false false ti_void
        (.acons "a" ti_int32 .dirIn (.acons "b" ti_utf8 .dirOut
          (.acons "c" ti_bool .dirInout .anil)))) [] =
      .ok (("", [⟨"a", some (.pyclass "int"), none⟩, ⟨"c", some (.pyclass "bool"), none⟩],
        .pystr "typing.Tuple[str]"), []) := by
  have h := c2_theorem "Gdk"
    (.mk false true false false false ti_void
      (.acons "a" ti_int32 .dirIn (.acons "b" ti_utf8 .dirOut
        (.acons "c" ti_bool .dirInout .anil)))) []
    .pynone [] [("a", .pyclass "int", .dirIn), ("b", .pyclass "str", .dirOut),
      ("c", .pyclass "bool", .dirInout)] []
    (by simp [get_typeinfo, GICallable.ret, ti_void, GTypeTag.from_typeinfo,
      GTypeTag.ofNat?, GITypeInfo.tag, GTypeTag.as_pytype])
    (by simp [resolve_arguments, get_argument_info, get_typeinfo, GICallable.args,
      ti_int32, ti_utf8, ti_bool, GTypeTag.from_typeinfo, GTypeTag.ofNat?,
      GITypeInfo.tag, GTypeTag.as_pytype])
  rw [h]
  simp [fn_is_static, fn_needs_self, composite_return, format_pytype, pyJoin]

/-- Claim C4: with boolean-result stripping enabled, the first entry of the
return collection is removed before composite construction; a non-boolean
first entry raises, and an emptied collection raises - neither case is a
silent skip. -/
theorem c4_theorem (cm : String) (f : GICallable) (imp : Imports)
    (r : PyType) (imp1 : Imports) (l : List (String × PyType × Direction)) (imp2 : Imports)
    (h1 : get_typeinfo cm f.ret imp = .ok (r, imp1))
    (h2 : resolve_arguments cm f.args imp1 = .ok (l, imp2)) :
    (r ≠ PyType.pyclass "bool" →
      details_from_funcinfo cm true f imp =
        .error "Tried to strip a non-boolean return type") ∧
    (r = PyType.pyclass "bool" → out_returns l = [] →
      details_from_funcinfo cm true f imp =
        .error "No returns left after boolean stripping") ∧
    (r = PyType.pyclass "bool" → out_returns l ≠ [] →
      details_from_funcinfo cm true f imp =
        .ok (((if fn_is_static f then "@staticmethod" else ""),
          (if fn_needs_self f then [⟨"self", none, none⟩] else []) ++ in_params l,
          composite_return (out_returns l)), imp2)) := by
  rw [details_eval cm true f imp r imp1 l imp2 h1 h2]
  refine ⟨fun hr => by simp [hr], fun hr ho => by simp [hr, ho], fun hr ho => ?_⟩
  subst hr
  simp only [ne_eq, not_true_eq_false, if_false, ite_false, if_true]
  cases he : out_returns l with
  | nil => exact absurd he ho
  | cons a as => simp

/-- Witness for C4: stripping a boolean-returning function with one OUT
string argument removes the boolean and leaves the bare string descriptor;
stripping a string-returning function raises; stripping a boolean-returning
function with no OUT arguments raises. -/
theorem c4_witness :
    details_from_funcinfo "Gdk" true
      (.mk false true false false false ti_bool (.acons "s" ti_utf8 .dirOut .anil)) [] =
      .ok (("", [], .pyclass "str"), []) ∧
    details_from_funcinfo "Gdk" true
      (.mk false true false false false ti_utf8 .anil) [] =
      .error "Tried to strip a non-boolean return type" ∧
    details_from_funcinfo "Gdk" true
      (.mk false true false false false ti_bool .anil) [] =
      .error "No returns left after boolean stripping" := by
  have hok := c4_theorem "Gdk"
    (.mk false true false false false ti_bool (.acons "s" ti_utf8 .dirOut .anil)) []
    (.pyclass "bool") [] [("s", .pyclass "str", .dirOut)] []
    (by simp [get_typeinfo, GICallable.ret, ti_bool, GTypeTag.from_typeinfo,
      GTypeTag.ofNat?, GITypeInfo.tag, GTypeTag.as_pytype])
    (by simp [resolve_arguments, get_argument_info, get_typeinfo, GICallable.args,
      ti_utf8, GTypeTag.from_typeinfo, GTypeTag.ofNat?, GITypeInfo.tag,
      GTypeTag.as_pytype])
  have herr1 := c4_theorem "Gdk"
    (.mk false true false false false ti_utf8 .anil) []
    (.pyclass "str") [] [] []
    (by simp [get_typeinfo, GICallable.ret, ti_utf8, GTypeTag.from_typeinfo,
      GTypeTag.ofNat?, GITypeInfo.tag, GTypeTag.as_pytype])
    (by simp [resolve_arguments, GICallable.args])
  have herr2 := c4_theorem "Gdk"
    (.mk false true false false false ti_bool .anil) []
    (.pyclass "bool") [] [] []
    (by simp [get_typeinfo, GICallable.ret, ti_bool, GTypeTag.from_typeinfo,
      GTypeTag.ofNat?, GITypeInfo.tag, GTypeTag.as_pytype])
    (by simp [resolve_arguments, GICallable.args])
  refine ⟨?_, ?_, ?_⟩
  · have := hok.2.2 rfl (by simp [out_returns])
    rw [this]
    simp [fn_is_static, fn_needs_self, in_params, out_returns, composite_return]
  · exact herr1.1 (by decide)
  · exact herr2.2.1 rfl (by simp [out_returns])

/-- A callable that is not a `FunctionInfo` (e.g. a `CallbackInfo` stored as
a struct field) but does have a containing entity. -/
def fn_callback_in_container : GICallable :=
  .mk false false false false true ti_void .anil

/-- The spec's isStatic rule as literally stated (spec 4.2 step 2 / claim
C9): true iff not needsSelf and (the callable is a constructor or it is
attached to a containing entity at all). -/
def spec_is_static (f : GICallable) : Bool :=
  !(fn_needs_self f) && (f.is_constructor || f.has_container)

/-- Claim C9 is false on the code: for a callable that is not a
`FunctionInfo` but has a containing entity (a callback stored in a
container), `needsSelf` is false and the claim's rule makes `isStatic`
true, but the source's `function.is_constructor()` lookup raises
`AttributeError`, caught to `is_static = False` (gityping.py:271-275). -/
theorem c9_counterexample :
    fn_needs_self fn_callback_in_container = false ∧
    fn_callback_in_container.has_container = true ∧
    spec_is_static fn_callback_in_container = true ∧
    fn_is_static fn_callback_in_container = false := by
  decide

/-- Claim C9, amended: `needsSelf` is true exactly when the callable is a
virtual function, or is a `FunctionInfo` that is an instance method;
`isStatic` is true exactly when `needsSelf` is false and the callable is a
`FunctionInfo` that is a constructor or has a containing entity (any other
callable lacks the `is_method`/`is_constructor` attributes and both flags
fall back to false); when `needsSelf` is true a synthetic untyped `self`
parameter is prepended to the parameter list, and when `isStatic` is true
the `@staticmethod` preamble is emitted. -/
theorem c9_theorem (cm : String) (f : GICallable) (imp : Imports)
    (r : PyType) (imp1 : Imports) (l : List (String × PyType × Direction)) (imp2 : Imports)
    (h1 : get_typeinfo cm f.ret imp = .ok (r, imp1))
    (h2 : resolve_arguments cm f.args imp1 = .ok (l, imp2)) :
    details_from_funcinfo cm false f imp =
      .ok (((if !(f.is_vfunc || (f.is_function_info && f.is_method)) &&
          (f.is_function_info && (f.is_constructor || f.has_container)) then
            "@staticmethod" else ""),
        (if f.is_vfunc || (f.is_function_info && f.is_method) then
            [⟨"self", none, none⟩] else []) ++ in_params l,
        composite_return (r :: out_returns l)), imp2) := by
  rw [details_eval cm false f imp r imp1 l imp2 h1 h2]
  obtain ⟨v, fi, m, c, hc, ret, args⟩ := f
  simp [fn_needs_self, fn_is_static, GICallable.is_vfunc, GICallable.is_function_info,
    GICallable.is_method, GICallable.is_constructor, GICallable.has_container]

/-- Witness for the amended C9: an instance method gets the synthetic
`self` and no static marker; a constructor `FunctionInfo` gets the
`@staticmethod` marker and no `self`. -/
theorem c9_witness :
    details_from_funcinfo "Gdk" false
      (.mk false true true false true ti_void .anil) [] =
      .ok (("", [⟨"self", none, none⟩], .pynone), []) ∧
    details_from_funcinfo "Gdk" false
      (.mk false true false true true ti_void .anil) [] =
      .ok (("@staticmethod", [], .pynone), []) := by
  have hm := c9_theorem "Gdk" (.mk false true true false true ti_void .anil) []
    .pynone [] [] []
    (by simp [get_typeinfo, GICallable.ret, ti_void, GTypeTag.from_typeinfo,
      GTypeTag.ofNat?, GITypeInfo.tag, GTypeTag.as_pytype])
    (by simp [resolve_arguments, GICallable.args])
  have hs := c9_theorem "Gdk" (.mk false true false true true ti_void .anil) []
    .pynone [] [] []
    (by simp [get_typeinfo, GICallable.ret, ti_void, GTypeTag.from_typeinfo,
      GTypeTag.ofNat?, GITypeInfo.tag, GTypeTag.as_pytype])
    (by simp [resolve_arguments, GICallable.args])
  constructor
  · rw [hm]
    simp [GICallable.is_vfunc, GICallable.is_function_info, GICallable.is_method,
      GICallable.is_constructor, GICallable.has_container, in_params, out_returns,
      composite_return]
  · rw [hs]
    simp [GICallable.is_vfunc, GICallable.is_function_info, GICallable.is_method,
      GICallable.is_constructor, GICallable.has_container, in_params, out_returns,
      composite_return]

mutual

/-- Well-formed type metadata: the tag is one of the recognized enum
values; container tags (the list-valued `ARRAY`/`GLIST`/`GSLIST`) carry an
element type, as the introspection provider guarantees; a callable behind
an interface tag is recursively well-formed. -/
def wfType : GITypeInfo → Bool
  | .mk tag _ iface param0 =>
    match GTypeTag.ofNat? tag with
    | none => false
    | some .ARRAY => wfElem param0
    | some .GLIST => wfElem param0
    | some .GSLIST => wfElem param0
    | some .INTERFACE =>
      (match iface with
       | .callableIface c => wfCallable c
       | _ => true)
    | some _ => true

/-- Well-formedness of a container's element type: present and well-formed. -/
def wfElem : Option GITypeInfo → Bool
  | some pt => wfType pt
  | none => false

/-- Well-formed callable metadata: return and argument types well-formed. -/
def wfCallable : GICallable → Bool
  | .mk _ _ _ _ _ ret args => wfType ret && wfArgs args

/-- Well-formed argument records: every argument type well-formed. -/
def wfArgs : GIArgList → Bool
  | .anil => true
  | .acons _ ty _ rest => wfType ty && wfArgs rest

end

mutual

/-- Totality of type resolution over well-formed metadata: `get_typeinfo`
never returns an error when every reachable tag is recognized and container
tags carry element types. -/
theorem get_typeinfo_total (cm : String) : ∀ (ti : GITypeInfo), wfType ti = true →
    ∀ imp : Imports, (get_typeinfo cm ti imp).isOk = true
  | .mk tag is_ptr .noIface (some pt), h, imp => by
    simp only [wfType] at h
    simp only [get_typeinfo, GTypeTag.from_typeinfo, GITypeInfo.tag]
    cases hg : GTypeTag.ofNat? tag with
    | none => rw [hg] at h; exact absurd h Bool.false_ne_true
    | some g =>
      rw [hg] at h
      cases g <;>
        first
        | (simp [GTypeTag.as_pytype, Except.isOk, Except.toBool]; done)
        | (dsimp only at h; simp only [wfElem] at h; exact absurd h Bool.false_ne_true)
        | (dsimp only at h
           simp only [wfElem] at h
           have hrec := get_typeinfo_total cm pt h imp
           cases hres : get_typeinfo cm pt imp with
           | error e => rw [hres] at hrec; simp [Except.isOk, Except.toBool] at hrec
           | ok p => simp [GTypeTag.as_pytype, hres, Except.isOk, Except.toBool])
        | (cases hfm : format_module cm cls imp with
           | mk s i1 => simp [GTypeTag.as_pytype, hfm, Except.isOk, Except.toBool])
        | (dsimp only at h
           have hrec := details_from_funcinfo_total cm c h imp
           cases hres : details_from_funcinfo cm false c imp with
           | error e => rw [hres] at hrec; simp [Except.isOk, Except.toBool] at hrec
           | ok p =>
             obtain ⟨⟨pre, ps, rt⟩, i2⟩ := p
             simp [GTypeTag.as_pytype, hres, Except.isOk, Except.toBool])
  | .mk tag is_ptr .noIface none, h, imp => by
    simp only [wfType] at h
    simp only [get_typeinfo, GTypeTag.from_typeinfo, GITypeInfo.tag]
    cases hg : GTypeTag.ofNat? tag with
    | none => rw [hg] at h; exact absurd h Bool.false_ne_true
    | some g =>
      rw [hg] at h
      cases g <;>
        first
        | (simp [GTypeTag.as_pytype, Except.isOk, Except.toBool]; done)
        | (dsimp only at h; simp only [wfElem] at h; exact absurd h Bool.false_ne_true)
        | (dsimp only at h
           simp only [wfElem] at h
           have hrec := get_typeinfo_total cm pt h imp
           cases hres : get_typeinfo cm pt imp with
           | error e => rw [hres] at hrec; simp [Except.isOk, Except.toBool] at hrec
           | ok p => simp [GTypeTag.as_pytype, hres, Except.isOk, Except.toBool])
        | (cases hfm : format_module cm cls imp with
           | mk s i1 => simp [GTypeTag.as_pytype, hfm, Except.isOk, Except.toBool])
        | (dsimp only at h
           have hrec := details_from_funcinfo_total cm c h imp
           cases hres : details_from_funcinfo cm false c imp with
           | error e => rw [hres] at hrec; simp [Except.isOk, Except.toBool] at hrec
           | ok p =>
             obtain ⟨⟨pre, ps, rt⟩, i2⟩ := p
             simp [GTypeTag.as_pytype, hres, Except.isOk, Except.toBool])
  | .mk tag is_ptr .otherIface (some pt), h, imp => by
    simp only [wfType] at h
    simp only [get_typeinfo, GTypeTag.from_typeinfo, GITypeInfo.tag]
    cases hg : GTypeTag.ofNat? tag with
    | none => rw [hg] at h; exact absurd h Bool.false_ne_true
    | some g =>
      rw [hg] at h
      cases g <;>
        first
        | (simp [GTypeTag.as_pytype, Except.isOk, Except.toBool]; done)
        | (dsimp only at h; simp only [wfElem] at h; exact absurd h Bool.false_ne_true)
        | (dsimp only at h
           simp only [wfElem] at h
           have hrec := get_typeinfo_total cm pt h imp
           cases hres : get_typeinfo cm pt imp with
           | error e => rw [hres] at hrec; simp [Except.isOk, Except.toBool] at hrec
           | ok p => simp [GTypeTag.as_pytype, hres, Except.isOk, Except.toBool])
        | (cases hfm : format_module cm cls imp with
           | mk s i1 => simp [GTypeTag.as_pytype, hfm, Except.isOk, Except.toBool])
        | (dsimp only at h
           have hrec := details_from_funcinfo_total cm c h imp
           cases hres : details_from_funcinfo cm false c imp with
           | error e => rw [hres] at hrec; simp [Except.isOk, Except.toBool] at hrec
           | ok p =>
             obtain ⟨⟨pre, ps, rt⟩, i2⟩ := p
             simp [GTypeTag.as_pytype, hres, Except.isOk, Except.toBool])
  | .mk tag is_ptr .otherIface none, h, imp => by
    simp only [wfType] at h
    simp only [get_typeinfo, GTypeTag.from_typeinfo, GITypeInfo.tag]
    cases hg : GTypeTag.ofNat? tag with
    | none => rw [hg] at h; exact absurd h Bool.false_ne_true
    | some g =>
      rw [hg] at h
      cases g <;>
        first
        | (simp [GTypeTag.as_pytype, Except.isOk, Except.toBool]; done)
        | (dsimp only at h; simp only [wfElem] at h; exact absurd h Bool.false_ne_true)
        | (dsimp only at h
           simp only [wfElem] at h
           have hrec := get_typeinfo_total cm pt h imp
           cases hres : get_typeinfo cm pt imp with
           | error e => rw [hres] at hrec; simp [Except.isOk, Except.toBool] at hrec
           | ok p => simp [GTypeTag.as_pytype, hres, Except.isOk, Except.toBool])
        | (cases hfm : format_module cm cls imp with
           | mk s i1 => simp [GTypeTag.as_pytype, hfm, Except.isOk, Except.toBool])
        | (dsimp only at h
           have hrec := details_from_funcinfo_total cm c h imp
           cases hres : details_from_funcinfo cm false c imp with
           | error e => rw [hres] at hrec; simp [Except.isOk, Except.toBool] at hrec
           | ok p =>
             obtain ⟨⟨pre, ps, rt⟩, i2⟩ := p
             simp [GTypeTag.as_pytype, hres, Except.isOk, Except.toBool])
  | .mk tag is_ptr (.registeredIface cls) (some pt), h, imp => by
    simp only [wfType] at h
    simp only [get_typeinfo, GTypeTag.from_typeinfo, GITypeInfo.tag]
    cases hg : GTypeTag.ofNat? tag with
    | none => rw [hg] at h; exact absurd h Bool.false_ne_true
    | some g =>
      rw [hg] at h
      cases g <;>
        first
        | (simp [GTypeTag.as_pytype, Except.isOk, Except.toBool]; done)
        | (dsimp only at h; simp only [wfElem] at h; exact absurd h Bool.false_ne_true)
        | (dsimp only at h
           simp only [wfElem] at h
           have hrec := get_typeinfo_total cm pt h imp
           cases hres : get_typeinfo cm pt imp with
           | error e => rw [hres] at hrec; simp [Except.isOk, Except.toBool] at hrec
           | ok p => simp [GTypeTag.as_pytype, hres, Except.isOk, Except.toBool])
        | (cases hfm : format_module cm cls imp with
           | mk s i1 => simp [GTypeTag.as_pytype, hfm, Except.isOk, Except.toBool])
        | (dsimp only at h
           have hrec := details_from_funcinfo_total cm c h imp
           cases hres : details_from_funcinfo cm false c imp with
           | error e => rw [hres] at hrec; simp [Except.isOk, Except.toBool] at hrec
           | ok p =>
             obtain ⟨⟨pre, ps, rt⟩, i2⟩ := p
             simp [GTypeTag.as_pytype, hres, Except.isOk, Except.toBool])
  | .mk tag is_ptr (.registeredIface cls) none, h, imp => by
    simp only [wfType] at h
    simp only [get_typeinfo, GTypeTag.from_typeinfo, GITypeInfo.tag]
    cases hg : GTypeTag.ofNat? tag with
    | none => rw [hg] at h; exact absurd h Bool.false_ne_true
    | some g =>
      rw [hg] at h
      cases g <;>
        first
        | (simp [GTypeTag.as_pytype, Except.isOk, Except.toBool]; done)
        | (dsimp only at h; simp only [wfElem] at h; exact absurd h Bool.false_ne_true)
        | (dsimp only at h
           simp only [wfElem] at h
           have hrec := get_typeinfo_total cm pt h imp
           cases hres : get_typeinfo cm pt imp with
           | error e => rw [hres] at hrec; simp [Except.isOk, Except.toBool] at hrec
           | ok p => simp [GTypeTag.as_pytype, hres, Except.isOk, Except.toBool])
        | (cases hfm : format_module cm cls imp with
           | mk s i1 => simp [GTypeTag.as_pytype, hfm, Except.isOk, Except.toBool])
        | (dsimp only at h
           have hrec := details_from_funcinfo_total cm c h imp
           cases hres : details_from_funcinfo cm false c imp with
           | error e => rw [hres] at hrec; simp [Except.isOk, Except.toBool] at hrec
           | ok p =>
             obtain ⟨⟨pre, ps, rt⟩, i2⟩ := p
             simp [GTypeTag.as_pytype, hres, Except.isOk, Except.toBool])
  | .mk tag is_ptr (.callableIface c) (some pt), h, imp => by
    simp only [wfType] at h
    simp only [get_typeinfo, GTypeTag.from_typeinfo, GITypeInfo.tag]
    cases hg : GTypeTag.ofNat? tag with
    | none => rw [hg] at h; exact absurd h Bool.false_ne_true
    | some g =>
      rw [hg] at h
      cases g <;>
        first
        | (simp [GTypeTag.as_pytype, Except.isOk, Except.toBool]; done)
        | (dsimp only at h; simp only [wfElem] at h; exact absurd h Bool.false_ne_true)
        | (dsimp only at h
           simp only [wfElem] at h
           have hrec := get_typeinfo_total cm pt h imp
           cases hres : get_typeinfo cm pt imp with
           | error e => rw [hres] at hrec; simp [Except.isOk, Except.toBool] at hrec
           | ok p => simp [GTypeTag.as_pytype, hres, Except.isOk, Except.toBool])
        | (cases hfm : format_module cm cls imp with
           | mk s i1 => simp [GTypeTag.as_pytype, hfm, Except.isOk, Except.toBool])
        | (dsimp only at h
           have hrec := details_from_funcinfo_total cm c h imp
           cases hres : details_from_funcinfo cm false c imp with
           | error e => rw [hres] at hrec; simp [Except.isOk, Except.toBool] at hrec
           | ok p =>
             obtain ⟨⟨pre, ps, rt⟩, i2⟩ := p
             simp [GTypeTag.as_pytype, hres, Except.isOk, Except.toBool])
  | .mk tag is_ptr (.callableIface c) none, h, imp => by
    simp only [wfType] at h
    simp only [get_typeinfo, GTypeTag.from_typeinfo, GITypeInfo.tag]
    cases hg : GTypeTag.ofNat? tag with
    | none => rw [hg] at h; exact absurd h Bool.false_ne_true
    | some g =>
      rw [hg] at h
      cases g <;>
        first
        | (simp [GTypeTag.as_pytype, Except.isOk, Except.toBool]; done)
        | (dsimp only at h; simp only [wfElem] at h; exact absurd h Bool.false_ne_true)
        | (dsimp only at h
           simp only [wfElem] at h
           have hrec := get_typeinfo_total cm pt h imp
           cases hres : get_typeinfo cm pt imp with
           | error e => rw [hres] at hrec; simp [Except.isOk, Except.toBool] at hrec
           | ok p => simp [GTypeTag.as_pytype, hres, Except.isOk, Except.toBool])
        | (cases hfm : format_module cm cls imp with
           | mk s i1 => simp [GTypeTag.as_pytype, hfm, Except.isOk, Except.toBool])
        | (dsimp only at h
           have hrec := details_from_funcinfo_total cm c h imp
           cases hres : details_from_funcinfo cm false c imp with
           | error e => rw [hres] at hrec; simp [Except.isOk, Except.toBool] at hrec
           | ok p =>
             obtain ⟨⟨pre, ps, rt⟩, i2⟩ := p
             simp [GTypeTag.as_pytype, hres, Except.isOk, Except.toBool])

/-- Totality of signature synthesis (without boolean stripping) over
well-formed callable metadata. -/
theorem details_from_funcinfo_total (cm : String) : ∀ (f : GICallable),
    wfCallable f = true → ∀ imp : Imports,
    (details_from_funcinfo cm false f imp).isOk = true
  | .mk v fi m c hc ret args, h, imp => by
    simp only [wfCallable] at h
    obtain ⟨hr, ha⟩ := Bool.and_eq_true_iff.mp h
    simp only [details_from_funcinfo]
    have hrec := get_typeinfo_total cm ret hr imp
    cases hres : get_typeinfo cm ret imp with
    | error e => rw [hres] at hrec; simp [Except.isOk, Except.toBool] at hrec
    | ok p =>
      obtain ⟨r, imp1⟩ := p
      dsimp only
      have hrec2 := process_arguments_total cm args ha imp1
      cases hres2 : process_arguments cm args imp1 with
      | error e => rw [hres2] at hrec2; simp [Except.isOk, Except.toBool] at hrec2
      | ok q =>
        obtain ⟨⟨ps, rs⟩, imp2⟩ := q
        simp [Except.isOk, Except.toBool]

/-- Totality of the argument loop over well-formed argument records. -/
theorem process_arguments_total (cm : String) : ∀ (args : GIArgList),
    wfArgs args = true → ∀ imp : Imports,
    (process_arguments cm args imp).isOk = true
  | .anil, _, imp => by simp [process_arguments, Except.isOk, Except.toBool]
  | .acons name ty dir rest, h, imp => by
    simp only [wfArgs] at h
    obtain ⟨hty, hrest⟩ := Bool.and_eq_true_iff.mp h
    simp only [process_arguments, get_argument_info]
    have hrec := get_typeinfo_total cm ty hty imp
    cases hres : get_typeinfo cm ty imp with
    | error e => rw [hres] at hrec; simp [Except.isOk, Except.toBool] at hrec
    | ok p =>
      obtain ⟨a, imp1⟩ := p
      dsimp only
      have hrec2 := process_arguments_total cm rest hrest imp1
      cases hres2 : process_arguments cm rest imp1 with
      | error e => rw [hres2] at hrec2; simp [Except.isOk, Except.toBool] at hrec2
      | ok q =>
        obtain ⟨⟨ps, rs⟩, imp2⟩ := q
        cases dir <;> simp [Except.isOk, Except.toBool]

end

/-- Claim C3 is false on the code: an unrecognized type tag (a raw tag
value outside the enum, here 99) makes `GTypeTag.from_typeinfo` raise a
`ValueError` (`cls(type_tag)` on the `IntEnum`, gityping.py:63), so
`get_typeinfo` raises instead of reporting a diagnostic and resolving to
the opaque type. -/
theorem c3_counterexample :
    get_typeinfo "Gdk" (.mk 99 false .noIface none) [] =
      .error ("ValueError: " ++ toString 99 ++ " is not a valid GTypeTag") ∧
    (get_typeinfo "Gdk" (.mk 99 false .noIface none) []).isOk = false := by
  constructor
  · simp [get_typeinfo, GTypeTag.from_typeinfo, GTypeTag.ofNat?, GITypeInfo.tag]
  · simp [get_typeinfo, GTypeTag.from_typeinfo, GTypeTag.ofNat?, GITypeInfo.tag,
      Except.isOk, Except.toBool]

/-- Claim C3, amended: type resolution is total and never raises over
well-formed metadata whose reachable tags are all recognized (with
container element types present, as the provider guarantees); a
pointer-shaped void tag with no further type information resolves to the
opaque `typing.Any`; but a raw tag outside the recognized enum makes
resolution raise a `ValueError` from the enum lookup rather than being
diagnosed and treated as opaque. -/
theorem c3_theorem :
    (∀ (cm : String) (ti : GITypeInfo), wfType ti = true → ∀ imp : Imports,
      (get_typeinfo cm ti imp).isOk = true) ∧
    (∀ (cm : String) (iface : GIIface) (param0 : Option GITypeInfo) (imp : Imports),
      get_typeinfo cm (.mk 0 true iface param0) imp = .ok (.pystr "typing.Any", imp)) ∧
    (∀ (cm : String) (tag : Nat) (is_ptr : Bool) (iface : GIIface)
      (param0 : Option GITypeInfo) (imp : Imports), GTypeTag.ofNat? tag = none →
      get_typeinfo cm (.mk tag is_ptr iface param0) imp =
        .error ("ValueError: " ++ toString tag ++ " is not a valid GTypeTag")) := by
  refine ⟨get_typeinfo_total, ?_, ?_⟩
  · intro cm iface param0 imp
    cases iface <;> cases param0 <;>
      simp [get_typeinfo, GTypeTag.from_typeinfo, GITypeInfo.tag, GTypeTag.ofNat?,
        GTypeTag.as_pytype]
  · intro cm tag is_ptr iface param0 imp h
    cases iface <;> cases param0 <;>
      simp [get_typeinfo, GTypeTag.from_typeinfo, GITypeInfo.tag, h]

/-- Witness for the amended C3: a boolean tag resolves, a pointer-void
resolves to `typing.Any`, and tag 99 raises. -/
theorem c3_witness :
    (get_typeinfo "Gdk" ti_bool []).isOk = true ∧
    get_typeinfo "Gdk" (.mk 0 true .noIface none) [] = .ok (.pystr "typing.Any", []) ∧
    get_typeinfo "Gdk" (.mk 99 false .otherIface none) [] =
      .error ("ValueError: " ++ toString 99 ++ " is not a valid GTypeTag") := by
  refine ⟨c3_theorem.1 "Gdk" ti_bool ?_ [], c3_theorem.2.1 "Gdk" .noIface none [],
    c3_theorem.2.2 "Gdk" 99 false .otherIface none [] ?_⟩
  · simp [ti_bool, wfType, GTypeTag.ofNat?]
  · simp [GTypeTag.ofNat?]

/-- The `__info__` of an entity, as dispatched on by `generate_class_stubs`
(gityping.py:558-566): object/interface (with structural fields),
struct/union (with field and method maps), enum/flags, or some other
`RegisteredTypeInfo` subclass (which raises `NotImplementedError`). -/
inductive EntityInfo where
  | objectInfo (fields : List (String × GITypeInfo)) : EntityInfo
  | interfaceInfo (fields : List (String × GITypeInfo)) : EntityInfo
  | structInfo (fields : List (String × GITypeInfo))
      (methods : List (String × GICallable)) : EntityInfo
  | unionInfo (fields : List (String × GITypeInfo))
      (methods : List (String × GICallable)) : EntityInfo
  | enumInfo (is_flags : Bool) : EntityInfo
  | otherRegisteredInfo : EntityInfo

mutual

/-- A runtime attribute value as classified by the source's `isinstance`
chain: a `types.FunctionType` wrapper carrying `__wrapped__` (with its
`__qualname__`), a `VFuncInfo`, a `FunctionInfo`, a plain
`types.FunctionType` (abstracted to its `inspect.signature` parameters and
return annotation), a `property`, a `GObject.GType`/`GFlags`/`GEnum`
instance (its type name plus its integer value when it has one), a bool,
int, str or float literal, a class, or anything else (its type name). -/
inductive PyValue where
  | wrappedFn (qualname : String) (wrapped : GICallable) : PyValue
  | vfuncVal (info : GICallable) : PyValue
  | funcInfoVal (info : GICallable) : PyValue
  | pyFnVal (params : List PyParam) (retAnn : Option PyType) : PyValue
  | propVal : PyValue
  | gobjVal (typeName : String) (intValue : Option Int) : PyValue
  | boolVal (b : Bool) : PyValue
  | intVal (n : Int) : PyValue
  | strVal (s : String) : PyValue
  | floatVal (r : String) : PyValue
  | classVal (c : PyClass) : PyValue
  | otherVal (typeName : String) : PyValue

/-- A Python class as consumed by `generate_class_stubs` and the per-kind
generators: `__module__`, `__name__`, the introspection namespace/name pair
behind `__info__` (for `format_cls_name`), `__gtype__.parent.pytype` when
present, `__info__` when present, `typing.get_type_hints` results, the
`__flags_values__`/`__enum_values__` member values (as the integers the
source compares against), and `__dict__` (a key present with no value
models an attribute whose `getattr` raises `AttributeError`). -/
inductive PyClass where
  | mk (module : String) (name : String) (giNS : Option (String × String))
      (gtypeParent : Option ClsRef) (info : Option EntityInfo)
      (annotations : List (String × String))
      (flags_values : List Int) (enum_values : List Int)
      (dict : List (String × Option PyValue)) : PyClass

end

/-- Projection: `cls.__module__`. -/
def PyClass.module : PyClass → String
  | .mk m _ _ _ _ _ _ _ _ => m

/-- Projection: `cls.__name__`. -/
def PyClass.name : PyClass → String
  | .mk _ n _ _ _ _ _ _ _ => n

/-- Projection: the `(get_namespace, get_name)` pair of `cls.__info__`. -/
def PyClass.giNS : PyClass → Option (String × String)
  | .mk _ _ ns _ _ _ _ _ _ => ns

/-- Projection: `cls.__gtype__.parent.pytype` when present and non-None. -/
def PyClass.gtypeParent : PyClass → Option ClsRef
  | .mk _ _ _ p _ _ _ _ _ => p

/-- Projection: `cls.__info__` when present. -/
def PyClass.info : PyClass → Option EntityInfo
  | .mk _ _ _ _ i _ _ _ _ => i

/-- Projection: `typing.get_type_hints(cls)` as a name-to-class-name map. -/
def PyClass.annotations : PyClass → List (String × String)
  | .mk _ _ _ _ _ a _ _ _ => a

/-- Projection: the integer values of `cls.__flags_values__.values()`. -/
def PyClass.flags_values : PyClass → List Int
  | .mk _ _ _ _ _ _ f _ _ => f

/-- Projection: the integer values of `cls.__enum_values__.values()`. -/
def PyClass.enum_values : PyClass → List Int
  | .mk _ _ _ _ _ _ _ e _ => e

/-- Projection: `cls.__dict__`. -/
def PyClass.dict : PyClass → List (String × Option PyValue)
  | .mk _ _ _ _ _ _ _ _ d => d

/-- The class-like view consumed by `generic_attr_stubber`: `__module__`
(absent on module objects, whose access raises `AttributeError`),
`__name__`, `__info__` when present, and `typing.get_type_hints`. -/
structure ClsLike where
  moduleAttr : Option String
  name : String
  info : Option EntityInfo
  annotations : List (String × String)

/-- View of a class for the generic stubber. -/
def PyClass.asClsLike (c : PyClass) : ClsLike :=
  ⟨some c.module, c.name, c.info, c.annotations⟩

/-- Python `getattr` over a `__dict__`: a missing key or a key recorded
with no value raises `AttributeError` (modelled as `none`). -/
def dictGetattr (d : List (String × Option PyValue)) (n : String) : Option PyValue :=
  (d.lookup n).join

/-- gityping.py:401-421 `attr_generator`: drop dunder names and
ignore-listed names; drop non-identifier names with a diagnostic; drop
names whose `getattr` raises `AttributeError` (logged unless the class is a
known static binding, skipped either way); yield the remaining
`(name, value)` pairs in order. -/
def attr_generator (clsName : String) (attrs : List String)
    (getattr : String → Option PyValue) : List (String × PyValue) :=
  attrs.filterMap (fun attr_name =>
    if pyStartswith attr_name "__" || ATTR_IGNORE_LIST.contains attr_name then none
    else if !(pyIsIdentifier attr_name) then none
    else
      match getattr attr_name with
      | some v => some (attr_name, v)
      | none => none)

/-- The `repr`-style rendering of an annotation inside `str(Signature)`:
classes render as their name, strings keep their quotes, `None` renders as
`None`. -/
def render_annotation_repr : PyType → String
  | .pynone => "None"
  | .pyclass n => n
  | .pystr s => "'" ++ s ++ "'"

/-- One parameter inside `str(inspect.Signature)`:
`name[:annotation][=default]`. -/
def render_param (p : PyParam) : String :=
  p.name ++
    (match p.annotation with
     | some a => ":" ++ render_annotation_repr a
     | none => "") ++
    (match p.default with
     | some d => "=" ++ d
     | none => "")

/-- `str(inspect.Signature)`: the parenthesised parameter list and the
optional return annotation. -/
def signature_str (params : List PyParam) (ret : Option PyType) : String :=
  "(" ++ pyJoin ", " (params.map render_param) ++ ")" ++
    (match ret with
     | some r => " -> " ++ render_annotation_repr r
     | none => "")

/-- A callable object accepted by `make_signature` (gityping.py:326-352):
a `CallableInfo` (covering `VFuncInfo` and `FunctionInfo`), or a plain
`types.FunctionType` abstracted to its `inspect.signature` data (anything
else raises `NotImplementedError`, which the model's closed type rules
out). -/
inductive FuncObj where
  | giFunc (info : GICallable) : FuncObj
  | pyFunc (params : List PyParam) (retAnn : Option PyType) : FuncObj

/-- gityping.py:342-345 `sanitise_param_default`: a default whose `str`
starts with `<` is replaced by no default. -/
def sanitise_param_default (p : PyParam) : PyParam :=
  match p.default with
  | some d => if pyStartswith d "<" then ⟨p.name, p.annotation, none⟩ else p
  | none => p

/-- gityping.py:326-352 `make_signature`: a `CallableInfo` goes through
`details_from_funcinfo` and its return type becomes the signature's return
annotation; a plain function keeps its own signature with sanitised
defaults and an empty preamble. -/
def make_signature (cm : String) (strip_bool_result : Bool) (f : FuncObj) (imp : Imports) :
    Except String ((List PyParam × Option PyType × String) × Imports) :=
  match f with
  | .giFunc info =>
    match details_from_funcinfo cm strip_bool_result info imp with
    | .error e => .error e
    | .ok ((preamble, params, return_type), imp1) =>
      .ok ((params, some return_type, preamble), imp1)
  | .pyFunc params retAnn =>
    .ok ((params.map sanitise_param_default, retAnn, ""), imp)

/-- gityping.py:382-398 `format_functioninfo`: any exception from signature
construction is re-raised as a `ValueError` naming the attribute; the stub
text is the optional preamble line, then `def name(signature): ...`. -/
def format_functioninfo (cm : String) (attr_name : String) (f : FuncObj)
    (strip_bool_result : Bool) (imp : Imports) : Except String (String × Imports) :=
  match make_signature cm strip_bool_result f imp with
  | .error e =>
    .error ("ValueError: couldn't make signature for " ++ attr_name ++ ": " ++ e)
  | .ok ((params, ret, preamble), imp1) =>
    let pre := if preamble ≠ "" then preamble ++ "\n" else ""
    .ok (pre ++ "def " ++ attr_name ++ signature_str params ret ++ ": ...\n", imp1)

/-- The `__class__` of a Python class object, abstracted to the builtin
metaclass; reachable only through `format_variable`'s `inspect.isclass`
branch, which no call site exercises. -/
def type_metaclass : ClsRef := ⟨"builtins", "type", none⟩

/-- Python `type(value).__name__` for the modelled attribute values. -/
def pyTypeName : PyValue → String
  | .wrappedFn _ _ => "function"
  | .vfuncVal _ => "VFuncInfo"
  | .funcInfoVal _ => "FunctionInfo"
  | .pyFnVal _ _ => "function"
  | .propVal => "property"
  | .gobjVal tn _ => tn
  | .boolVal _ => "bool"
  | .intVal _ => "int"
  | .strVal _ => "str"
  | .floatVal _ => "float"
  | .classVal _ => "type"
  | .otherVal tn => tn

/-- gityping.py:361-366 `format_variable`: classes are typed by
`format_module` of their metaclass; any other value is typed by its type
name. -/
def format_variable (cm : String) (name : String) (v : PyValue) (imp : Imports) :
    String × Imports :=
  match v with
  | .classVal _ =>
    let (ts, imp1) := format_module cm type_metaclass imp
    (name ++ " = ...  # type: " ++ ts, imp1)
  | _ => (name ++ " = ...  # type: " ++ pyTypeName v, imp)

/-- gityping.py:369-374 `format_property`: typed by the externally supplied
type hint for the name, else `typing.Any`. -/
def format_property (name : String) (annotations : List (String × String)) : String :=
  let type_str :=
    match annotations.lookup name with
    | some a => a
    | none => "typing.Any"
  name ++ " = ...  # type: " ++ type_str

/-- gityping.py:377-379 `format_fieldinfo`: typed via `get_typeinfo` on the
field's declared type. -/
def format_fieldinfo (cm : String) (attr_name : String) (fieldType : GITypeInfo)
    (imp : Imports) : Except String (String × Imports) :=
  match get_typeinfo cm fieldType imp with
  | .error e => .error e
  | .ok (pytype, imp1) =>
    .ok (attr_name ++ " = ...  # type: " ++ format_pytype pytype, imp1)

/-- gityping.py:432-435: `cls.__info__.get_fields()` with the
`AttributeError` fallback to an empty map (enums and info-less classes have
no `get_fields`). -/
def info_fields : Option EntityInfo → List (String × GITypeInfo)
  | some (.objectInfo fs) => fs
  | some (.interfaceInfo fs) => fs
  | some (.structInfo fs _) => fs
  | some (.unionInfo fs _) => fs
  | _ => []

/-- gityping.py:455-468: the tail of `generic_attr_stubber`'s priority
chain, reached when the attribute is not a recognised callable: a name
declared as a structural field is emitted as a typed field; a `property` on
an overridden entity is emitted via the type-hint map (reading
`cls.__module__`, which raises on module objects); a
`GType`/`GFlags`/`GEnum` instance or an int/str/float literal is emitted as
a typed variable; anything else is an unsupported-type diagnostic and is
skipped. -/
def generic_attr_stubber_tail (cm : String) (cls : ClsLike) (attr_name : String)
    (attr : PyValue) (imp : Imports) : Except String (Option String × Imports) :=
  match (info_fields cls.info).lookup attr_name with
  | some ft =>
    match format_fieldinfo cm attr_name ft imp with
    | .error e => .error e
    | .ok (s, imp1) => .ok (some s, imp1)
  | none =>
    match attr with
    | .propVal =>
      match cls.moduleAttr with
      | none =>
        .error ("AttributeError: " ++ cls.name ++ " object has no attribute __module__")
      | some m =>
        if pyStartswith m "gi.overrides" then
          .ok (some (format_property attr_name cls.annotations), imp)
        else .ok (none, imp)
    | .gobjVal tn iv => .ok (some (format_variable cm attr_name (.gobjVal tn iv) imp).1,
        (format_variable cm attr_name (.gobjVal tn iv) imp).2)
    | .boolVal b => .ok (some (format_variable cm attr_name (.boolVal b) imp).1, imp)
    | .intVal n => .ok (some (format_variable cm attr_name (.intVal n) imp).1, imp)
    | .strVal s => .ok (some (format_variable cm attr_name (.strVal s) imp).1, imp)
    | .floatVal r => .ok (some (format_variable cm attr_name (.floatVal r) imp).1, imp)
    | _ => .ok (none, imp)

/-- gityping.py:424-468 `generic_attr_stubber`: the priority chain.  A
wrapped function is emitted as a method with boolean stripping when its
qualified name marks the known boolean-stripping wrapper (an unhandled
wrapper logs a warning and is emitted unstripped); a
`VFuncInfo`/`FunctionInfo` is emitted as a method; a plain Python function
on an overridden entity is emitted from its own signature (the
`cls.__module__` access raises `AttributeError` on module objects); the
rest of the chain is `generic_attr_stubber_tail`. -/
def generic_attr_stubber (cm : String) (cls : ClsLike) (attr_name : String)
    (attr : PyValue) (imp : Imports) : Except String (Option String × Imports) :=
  match attr with
  | .wrappedFn qualname wrapped =>
    if pyStartswith qualname PYGI_BOOL_OVERRIDE_FN then
      match format_functioninfo cm attr_name (.giFunc wrapped) true imp with
      | .error e => .error e
      | .ok (s, imp1) => .ok (some s, imp1)
    else
      match format_functioninfo cm attr_name (.giFunc wrapped) false imp with
      | .error e => .error e
      | .ok (s, imp1) => .ok (some s, imp1)
  | .vfuncVal info =>
    match format_functioninfo cm attr_name (.giFunc info) false imp with
    | .error e => .error e
    | .ok (s, imp1) => .ok (some s, imp1)
  | .funcInfoVal info =>
    match format_functioninfo cm attr_name (.giFunc info) false imp with
    | .error e => .error e
    | .ok (s, imp1) => .ok (some s, imp1)
  | .pyFnVal params retAnn =>
    match cls.moduleAttr with
    | none =>
      .error ("AttributeError: " ++ cls.name ++ " object has no attribute __module__")
    | some m =>
      if pyStartswith m "gi.overrides" then
        match format_functioninfo cm attr_name (.pyFunc params retAnn) false imp with
        | .error e => .error e
        | .ok (s, imp1) => .ok (some s, imp1)
      else generic_attr_stubber_tail cm cls attr_name (.pyFnVal params retAnn) imp
  | v => generic_attr_stubber_tail cm cls attr_name v imp

/-- The `stub_out` closure of `generate_class_stubs` (gityping.py:539-543):
each line of the stub is indented by four spaces and right-stripped when it
has content, and kept verbatim when blank. -/
def stub_out_lines (stub : String) : List String :=
  (pySplitlines stub).map (fun l => if pyStripNonempty l then pyRstrip ("    " ++ l) else l)

/-- gityping.py:471-473 `generate_gobject_stubs`, as its loop over the
surviving attributes: each one goes through `generic_attr_stubber` and its
emission (when any) through the caller's `stub_out`. -/
def gobject_stub_loop (cm : String) (cls : ClsLike) (stub_out : String → List String) :
    List (String × PyValue) → Imports → Except String (List String × Imports)
  | [], imp => .ok ([], imp)
  | (attr_name, attr) :: rest, imp =>
    match generic_attr_stubber cm cls attr_name attr imp with
    | .error e => .error e
    | .ok (none, imp1) => gobject_stub_loop cm cls stub_out rest imp1
    | .ok (some s, imp1) =>
      match gobject_stub_loop cm cls stub_out rest imp1 with
      | .error e => .error e
      | .ok (lines, imp2) => .ok (stub_out s ++ lines, imp2)

/-- gityping.py:471-473 `generate_gobject_stubs`. -/
def generate_gobject_stubs (cm : String) (cls : ClsLike) (clsName : String)
    (attrs : List String) (getattr : String → Option PyValue)
    (stub_out : String → List String) (imp : Imports) :
    Except String (List String × Imports) :=
  gobject_stub_loop cm cls stub_out (attr_generator clsName attrs getattr) imp

/-- The two struct-specific maps of `generate_struct_stub`
(gityping.py:510-511): name-to-field and name-to-method from the entity's
own structural introspection.  The stub builder dispatches here only for
struct/union entities. -/
def struct_maps : Option EntityInfo →
    List (String × GITypeInfo) × List (String × GICallable)
  | some (.structInfo fs ms) => (fs, ms)
  | some (.unionInfo fs ms) => (fs, ms)
  | _ => ([], [])

/-- gityping.py:513-521: the attribute loop of `generate_struct_stub`.
Each surviving attribute is looked up in the field map first, then the
method map; a name in neither raises `NotImplementedError`, aborting the
run. -/
def struct_stub_loop (cm : String) (clsName : String)
    (field_map : List (String × GITypeInfo)) (method_map : List (String × GICallable))
    (stub_out : String → List String) :
    List (String × PyValue) → Imports → Except String (List String × Imports)
  | [], imp => .ok ([], imp)
  | (attr_name, _) :: rest, imp =>
    match field_map.lookup attr_name with
    | some ft =>
      match format_fieldinfo cm attr_name ft imp with
      | .error e => .error e
      | .ok (s, imp1) =>
        match struct_stub_loop cm clsName field_map method_map stub_out rest imp1 with
        | .error e => .error e
        | .ok (lines, imp2) => .ok (stub_out s ++ lines, imp2)
    | none =>
      match method_map.lookup attr_name with
      | some mi =>
        match format_functioninfo cm attr_name (.giFunc mi) false imp with
        | .error e => .error e
        | .ok (s, imp1) =>
          match struct_stub_loop cm clsName field_map method_map stub_out rest imp1 with
          | .error e => .error e
          | .ok (lines, imp2) => .ok (stub_out s ++ lines, imp2)
      | none =>
        .error ("NotImplementedError: Struct " ++ clsName ++ " attribute " ++ attr_name ++
          " is not in field or method map")

/-- gityping.py:505-521 `generate_struct_stub`. -/
def generate_struct_stub (cm : String) (cls : PyClass) (attrs : List String)
    (stub_out : String → List String) (imp : Imports) :
    Except String (List String × Imports) :=
  let maps := struct_maps cls.info
  struct_stub_loop cm cls.name maps.1 maps.2 stub_out
    (attr_generator cls.name attrs (dictGetattr cls.dict)) imp

/-- Python `attr in expected_values` for the enum generator: only a value
carrying an integer (an int literal, a bool, or a `GEnum`/`GFlags` member,
which compare as their integer values) can match. -/
def pyValueInExpected (v : PyValue) (expected : List Int) : Bool :=
  match v with
  | .intVal n => expected.contains n
  | .boolVal b => expected.contains (if b then 1 else 0)
  | .gobjVal _ (some n) => expected.contains n
  | _ => false

/-- gityping.py:487-502: the attribute loop of `generate_genum_stub`.  The
`LEVEL_MASK` name is accepted outright (the documented numeric-overflow
case); an uppercase name whose value is in the declared member-value set is
emitted as a typed constant; a `FunctionInfo` failing that test is emitted
as a method; anything else failing it is skipped with a warning. -/
def genum_stub_loop (cm : String) (expected : List Int)
    (stub_out : String → List String) :
    List (String × PyValue) → Imports → Except String (List String × Imports)
  | [], imp => .ok ([], imp)
  | (attr_name, attr) :: rest, imp =>
    if attr_name = "LEVEL_MASK" then
      match format_variable cm attr_name attr imp with
      | (s, imp1) =>
        match genum_stub_loop cm expected stub_out rest imp1 with
        | .error e => .error e
        | .ok (lines, imp2) => .ok (stub_out s ++ lines, imp2)
    else if !(pyIsUpper attr_name) || !(pyValueInExpected attr expected) then
      match attr with
      | .funcInfoVal info =>
        match format_functioninfo cm attr_name (.giFunc info) false imp with
        | .error e => .error e
        | .ok (s, imp1) =>
          match genum_stub_loop cm expected stub_out rest imp1 with
          | .error e => .error e
          | .ok (lines, imp2) => .ok (stub_out s ++ lines, imp2)
      | _ => genum_stub_loop cm expected stub_out rest imp
    else
      match format_variable cm attr_name attr imp with
      | (s, imp1) =>
        match genum_stub_loop cm expected stub_out rest imp1 with
        | .error e => .error e
        | .ok (lines, imp2) => .ok (stub_out s ++ lines, imp2)

/-- gityping.py:476-502 `generate_genum_stub`: the expected member-value
set comes from `__flags_values__` for flags and `__enum_values__`
otherwise. -/
def generate_genum_stub (cm : String) (cls : PyClass) (attrs : List String)
    (stub_out : String → List String) (imp : Imports) :
    Except String (List String × Imports) :=
  let is_flags :=
    match cls.info with
    | some (.enumInfo b) => b
    | _ => false
  let expected_values := if is_flags then cls.flags_values else cls.enum_values
  genum_stub_loop cm expected_values stub_out
    (attr_generator cls.name attrs (dictGetattr cls.dict)) imp

/-- gityping.py:524-569 `generate_class_stubs`: a blank line, the class
header (parent reference routed through `format_module`), the per-kind body
over the sorted `__dict__` names through the indenting `stub_out`, then the
trailing `...` placeholder.  A class without `__info__` is logged and
handled by the generic path; a `RegisteredTypeInfo` of an unhandled kind
raises `NotImplementedError`. -/
def generate_class_stubs (cm : String) (cls : PyClass) (imp : Imports) :
    Except String (List String × Imports) :=
  let hd := format_gi_class cm cls.name cls.giNS cls.gtypeParent imp
  let attrs := pySorted (cls.dict.map Prod.fst)
  let body : Except String (List String × Imports) :=
    match cls.info with
    | none =>
      generate_gobject_stubs cm cls.asClsLike cls.name attrs (dictGetattr cls.dict)
        stub_out_lines hd.2
    | some (.objectInfo fs) =>
      generate_gobject_stubs cm cls.asClsLike cls.name attrs (dictGetattr cls.dict)
        stub_out_lines hd.2
    | some (.interfaceInfo fs) =>
      generate_gobject_stubs cm cls.asClsLike cls.name attrs (dictGetattr cls.dict)
        stub_out_lines hd.2
    | some (.structInfo _ _) =>
      generate_struct_stub cm cls attrs stub_out_lines hd.2
    | some (.unionInfo _ _) =>
      generate_struct_stub cm cls attrs stub_out_lines hd.2
    | some (.enumInfo _) =>
      generate_genum_stub cm cls attrs stub_out_lines hd.2
    | some .otherRegisteredInfo => .error "NotImplementedError"
  match body with
  | .error e => .error e
  | .ok (lines, imp2) => .ok (["", hd.1] ++ lines ++ stub_out_lines "...", imp2)

/-- A module object as consumed by `generate_module_stub`: its `__name__`,
whether it is an `IntrospectionModule` and whether it carries an
`_introspection_module` (overrides), its type hints, and its `__dict__`
after the source's lazy-loading materialisation. -/
structure PyModule where
  name : String
  isIntrospectionModule : Bool
  hasOverrides : Bool
  annotations : List (String × String)
  dict : List (String × Option PyValue)

/-- The class-like view of a module passed as `cls` to
`generic_attr_stubber` at module scope: modules have no `__module__` and no
`__info__`. -/
def PyModule.asClsLike (m : PyModule) : ClsLike :=
  ⟨none, m.name, none, m.annotations⟩

/-- gityping.py:608-631: the attribute loop of `generate_module_stub`.
Classes whose name ends in `Class`/`Private` and classes from the
statically bound `gi._glib` module are skipped; other classes are built by
`generate_class_stubs` preceded by a blank entry; everything else goes
through `generic_attr_stubber` at module scope. -/
def module_attr_loop (cm : String) (mcls : ClsLike) :
    List (String × PyValue) → Imports → Except String (List String × Imports)
  | [], imp => .ok ([], imp)
  | (attr_name, attr) :: rest, imp =>
    match attr with
    | .classVal c =>
      if pyEndswith attr_name "Class" || pyEndswith attr_name "Private" then
        module_attr_loop cm mcls rest imp
      else if c.module = "gi._glib" then
        module_attr_loop cm mcls rest imp
      else
        match generate_class_stubs cm c imp with
        | .error e => .error e
        | .ok (cls_lines, imp1) =>
          match module_attr_loop cm mcls rest imp1 with
          | .error e => .error e
          | .ok (lines, imp2) => .ok (("" :: cls_lines) ++ lines, imp2)
    | v =>
      match generic_attr_stubber cm mcls attr_name v imp with
      | .error e => .error e
      | .ok (os, imp1) =>
        match module_attr_loop cm mcls rest imp1 with
        | .error e => .error e
        | .ok (lines, imp2) =>
          .ok ((match os with | some s => [s] | none => []) ++ lines, imp2)

/-- gityping.py:572-636 `generate_module_stub`: the import set is seeded
with `typing`; a non-introspection module raises `RuntimeError`; the
attribute names are sorted and filtered by `attr_generator`; the output is
one `import` line per accumulated module name (sorted) followed by the
emitted declarations joined by newlines. -/
def generate_module_stub (m : PyModule) : Except String String :=
  let imp0 : Imports := ["typing"]
  if !(m.isIntrospectionModule || m.hasOverrides) then
    .error ("RuntimeError: tried to generate a stub for non-introspection module " ++ m.name)
  else
    let attrs := pySorted (m.dict.map Prod.fst)
    match module_attr_loop m.name m.asClsLike
        (attr_generator m.name attrs (dictGetattr m.dict)) imp0 with
    | .error e => .error e
    | .ok (attr_stubs, impF) =>
      .ok (pyJoin "\n" ((pySorted impF).map (fun i => "import " ++ i)) ++ "\n" ++
        pyJoin "\n" attr_stubs)

/-- Bridge between `List.contains` and membership for strings. -/
theorem string_contains_iff (l : List String) (m : String) :
    l.contains m = true ↔ m ∈ l := by simp

/-- `set.add` keeps the count of an element at most one. -/
theorem count_setAdd_le_one (imp : Imports) (m : String) (h : imp.count m ≤ 1) :
    (setAdd imp m).count m ≤ 1 := by
  unfold setAdd
  by_cases hm : m ∈ imp
  · rw [if_pos ((string_contains_iff imp m).mpr hm)]
    exact h
  · rw [if_neg (fun hc => hm ((string_contains_iff imp m).mp hc))]
    have h0 : imp.count m = 0 := List.count_eq_zero.mpr hm
    simp [List.count_append, h0, List.count_cons]

/-- Claim C8: within one run, a reference to an entity is unqualified iff
its owning (effective) module equals the current module, and otherwise is
the fully qualified `module.name` with the module added to the import set;
formatting the same reference twice yields identical text and leaves the
referenced module in the import set at most once. -/
theorem c8_theorem (cm : String) (cls : ClsRef) (imp : Imports)
    (hc : imp.count (get_effective_module cls.module) ≤ 1) :
    (get_effective_module cls.module = cm →
      format_module cm cls imp = (format_cls_name cls, imp)) ∧
    (get_effective_module cls.module ≠ cm →
      format_module cm cls imp =
        (get_effective_module cls.module ++ "." ++ format_cls_name cls,
          setAdd imp (get_effective_module cls.module))) ∧
    (format_module cm cls (format_module cm cls imp).2).1 = (format_module cm cls imp).1 ∧
    (format_module cm cls (format_module cm cls imp).2).2.count
      (get_effective_module cls.module) ≤ 1 := by
  unfold format_module
  by_cases he : get_effective_module cls.module = cm
  · rw [he] at hc
    simp [he, hc]
  · simp only [he, if_false, ne_eq, not_false_eq_true, true_implies, and_true,
      IsEmpty.forall_iff, true_and, not_true_eq_false, false_implies]
    exact count_setAdd_le_one _ _ (count_setAdd_le_one _ _ hc)

/-- Witness for C8: referencing `GObject.Object` (normalised to `GObject`)
from the `Gdk` module qualifies it, imports its module once, and formatting
twice yields the same text. -/
theorem c8_witness :
    format_module "Gdk" ⟨"gi.repository.GObject", "Object", some ("GObject", "Object")⟩
        ["typing"] =
      ("gi.repository.GObject.GObject", ["typing", "gi.repository.GObject"]) ∧
    (format_module "Gdk" ⟨"gi.repository.GObject", "Object", some ("GObject", "Object")⟩
        ["typing", "gi.repository.GObject"]).1 = "gi.repository.GObject.GObject" ∧
    ["typing", "gi.repository.GObject"].count "gi.repository.GObject" ≤ 1 := by
  have h := c8_theorem "Gdk"
    ⟨"gi.repository.GObject", "Object", some ("GObject", "Object")⟩ ["typing"]
    (by decide)
  refine ⟨?_, ?_, by decide⟩
  · have h2 := h.2.1 (by decide)
    rw [h2]
    constructor
  · have h2 := h.2.1 (by decide)
    have h3 := h.2.2.1
    rw [h2] at h3
    simpa [setAdd, get_effective_module, format_cls_name] using h3

/-- Membership is preserved by sorted insertion. -/
theorem mem_insertSorted (x y : String) : ∀ l : List String,
    y ∈ insertSorted x l ↔ y = x ∨ y ∈ l
  | [] => by simp [insertSorted]
  | a :: as => by
    unfold insertSorted
    by_cases hx : pyStrLe x a = true
    · rw [if_pos hx]
      simp
    · rw [if_neg hx]
      simp only [List.mem_cons, mem_insertSorted x y as]
      tauto

/-- Membership is preserved by the Python sort. -/
theorem mem_pySorted (y : String) : ∀ l : List String, y ∈ pySorted l ↔ y ∈ l
  | [] => by simp [pySorted]
  | a :: as => by
    have h := mem_pySorted y as
    simp only [pySorted, List.foldr] at h ⊢
    rw [mem_insertSorted]
    simp [h]

/-- Sorted insertion preserves sortedness. -/
theorem sorted_insertSorted (x : String) : ∀ l : List String,
    l.Sorted (fun a b => pyStrLe a b = true) →
    (insertSorted x l).Sorted (fun a b => pyStrLe a b = true)
  | [], _ => by simp [insertSorted]
  | a :: as, h => by
    unfold insertSorted
    obtain ⟨ha, has⟩ := List.sorted_cons.mp h
    by_cases hx : pyStrLe x a = true
    · rw [if_pos hx]
      refine List.sorted_cons.mpr ⟨?_, h⟩
      intro b hb
      rcases List.mem_cons.mp hb with rfl | hb
      · exact hx
      · exact pyStrLe_trans hx (ha b hb)
    · rw [if_neg hx]
      refine List.sorted_cons.mpr ⟨?_, sorted_insertSorted x as has⟩
      intro b hb
      rcases (mem_insertSorted x b as).mp hb with heq | hb
      · rw [heq]
        exact pyStrLe_of_not x a hx
      · exact ha b hb

/-- The Python sort produces a sorted list. -/
theorem pySorted_sorted : ∀ l : List String,
    (pySorted l).Sorted (fun a b => pyStrLe a b = true)
  | [] => by simp [pySorted]
  | a :: as => sorted_insertSorted a (pySorted as) (pySorted_sorted as)

/-- Inserting an element below every member of a list puts it in front. -/
theorem insertSorted_front (x : String) : ∀ l : List String,
    (∀ z ∈ l, pyStrLe x z = true) → insertSorted x l = x :: l
  | [], _ => rfl
  | z :: zs, h => by
    unfold insertSorted
    rw [if_pos (h z (List.mem_cons_self z zs))]

/-- Filtering commutes with sorted insertion on a sorted list. -/
theorem filter_insertSorted (p : String → Bool) (x : String) : ∀ l : List String,
    l.Sorted (fun a b => pyStrLe a b = true) →
    (insertSorted x l).filter p =
      if p x then insertSorted x (l.filter p) else l.filter p
  | [], _ => by
    by_cases hp : p x <;> simp [insertSorted, hp]
  | a :: as, h => by
    obtain ⟨ha, has⟩ := List.sorted_cons.mp h
    rw [insertSorted]
    by_cases hx : pyStrLe x a = true
    · rw [if_pos hx]
      by_cases hp : p x
      · rw [if_pos hp, List.filter_cons_of_pos hp]
        rw [insertSorted_front x ((a :: as).filter p) (fun z hz => by
          rcases List.mem_cons.mp (List.mem_of_mem_filter hz) with rfl | hzas
          · exact hx
          · exact pyStrLe_trans hx (ha z hzas))]
      · rw [if_neg hp, List.filter_cons_of_neg hp]
    · rw [if_neg hx]
      have ih := filter_insertSorted p x as has
      by_cases hpa : p a
      · rw [List.filter_cons_of_pos hpa, ih, List.filter_cons_of_pos hpa]
        by_cases hp : p x
        · rw [if_pos hp, if_pos hp]
          conv_rhs => rw [insertSorted]
          rw [if_neg hx]
        · rw [if_neg hp, if_neg hp]
      · rw [List.filter_cons_of_neg hpa, ih, List.filter_cons_of_neg hpa]

/-- Filtering commutes with the Python sort. -/
theorem pySorted_filter (p : String → Bool) : ∀ l : List String,
    pySorted (l.filter p) = (pySorted l).filter p
  | [] => rfl
  | a :: as => by
    by_cases hp : p a
    · rw [List.filter_cons_of_pos hp]
      show insertSorted a (pySorted (as.filter p)) = _
      rw [pySorted_filter p as]
      show _ = (insertSorted a (pySorted as)).filter p
      rw [filter_insertSorted p a (pySorted as) (pySorted_sorted as), if_pos hp]
    · rw [List.filter_cons_of_neg hp]
      rw [pySorted_filter p as]
      show _ = (insertSorted a (pySorted as)).filter p
      rw [filter_insertSorted p a (pySorted as) (pySorted_sorted as), if_neg hp]

/-- A name that maps to nothing can be filtered out of a `filterMap`'s
input without changing the output. -/
theorem filterMap_drop_none {α : Type} (f : String → Option α) (n : String)
    (hf : f n = none) : ∀ l : List String,
    l.filterMap f = (l.filter (fun a => a != n)).filterMap f
  | [] => rfl
  | a :: as => by
    by_cases ha : a = n
    · subst ha
      rw [List.filterMap_cons, hf]
      have : (a :: as).filter (fun b => b != a) = as.filter (fun b => b != a) := by
        simp [List.filter_cons]
      rw [this]
      exact filterMap_drop_none f a hf as
    · have : (a :: as).filter (fun b => b != n) = a :: as.filter (fun b => b != n) := by
        simp [List.filter_cons, ha]
      rw [this, List.filterMap_cons, List.filterMap_cons]
      rw [filterMap_drop_none f n hf as]

/-- The filter step of `attr_generator` rejects a dunder name, an
ignore-listed name, and a non-identifier name outright. -/
theorem attr_generator_step_none (n : String) (getattr : String → Option PyValue)
    (h : pyStartswith n "__" = true ∨ n ∈ ATTR_IGNORE_LIST ∨ pyIsIdentifier n = false) :
    (if pyStartswith n "__" || ATTR_IGNORE_LIST.contains n then none
     else if !(pyIsIdentifier n) then none
     else
       match getattr n with
       | some v => some (n, v)
       | none => none) = (none : Option (String × PyValue)) := by
  by_cases hs : (pyStartswith n "__" || ATTR_IGNORE_LIST.contains n) = true
  · rw [if_pos hs]
  · have h3 : pyIsIdentifier n = false := by
      rcases h with h1 | h2 | h3
      · exact absurd (by rw [h1]; rfl) hs
      · exact absurd (by rw [(string_contains_iff ATTR_IGNORE_LIST n).mpr h2, Bool.or_true]) hs
      · exact h3
    rw [if_neg hs, if_pos (show (!pyIsIdentifier n) = true by rw [h3]; rfl)]

/-- A map-then-filter-on-first-component commutation for dict entries. -/
theorem map_fst_filter_ne (n : String) (d : List (String × Option PyValue)) :
    ((d.filter (fun p => p.1 != n)).map Prod.fst) =
      (d.map Prod.fst).filter (fun a => a != n) := by
  induction d with
  | nil => rfl
  | cons p ps ih =>
    by_cases hp : p.1 = n
    · simp [List.filter_cons, hp, ih]
    · simp [List.filter_cons, hp, ih]

/-- Removing another key's entries from a dict does not change a lookup. -/
theorem lookup_filter_ne (n a : String) (ha : a ≠ n) :
    ∀ d : List (String × Option PyValue),
    (d.filter (fun p => p.1 != n)).lookup a = d.lookup a
  | [] => rfl
  | p :: ps => by
    by_cases hp : p.1 = n
    · have hne : ¬(a == p.1) = true := by simp [hp, ha]
      rw [List.filter_cons_of_neg (by simp [hp])]
      rw [lookup_filter_ne n a ha ps]
      obtain ⟨p1, p2⟩ := p
      simp only at hp
      subst hp
      simp [List.lookup, hne]
    · rw [List.filter_cons_of_pos (by simp [hp])]
      obtain ⟨p1, p2⟩ := p
      simp only [List.lookup]
      by_cases hap : a == p1
      · simp [hap]
      · simp [hap, lookup_filter_ne n a ha ps]

/-- `attr_generator` only consults `getattr` at the names it yields. -/
theorem attr_generator_congr (clsName : String) (g1 g2 : String → Option PyValue) :
    ∀ attrs : List String, (∀ a ∈ attrs, g1 a = g2 a) →
    attr_generator clsName attrs g1 = attr_generator clsName attrs g2
  | [], _ => rfl
  | a :: as, h => by
    have ht := attr_generator_congr clsName g1 g2 as
      (fun b hb => h b (List.mem_cons.mpr (Or.inr hb)))
    unfold attr_generator at ht ⊢
    rw [List.filterMap_cons, List.filterMap_cons, h a (List.mem_cons_self a as), ht]

/-- The generator-level skip: a dunder, ignore-listed or non-identifier
name can be deleted from the attribute list without changing the yielded
pairs, and is never yielded. -/
theorem attr_generator_drop (n : String)
    (h : pyStartswith n "__" = true ∨ n ∈ ATTR_IGNORE_LIST ∨ pyIsIdentifier n = false)
    (clsName : String) (attrs : List String) (getattr : String → Option PyValue) :
    attr_generator clsName attrs getattr =
      attr_generator clsName (attrs.filter (fun a => a != n)) getattr ∧
    n ∉ (attr_generator clsName attrs getattr).map Prod.fst := by
  constructor
  · unfold attr_generator
    exact filterMap_drop_none _ n (attr_generator_step_none n getattr h) attrs
  · intro hmem
    rw [List.mem_map] at hmem
    obtain ⟨p, hp, hpn⟩ := hmem
    unfold attr_generator at hp
    rw [List.mem_filterMap] at hp
    obtain ⟨a, _, hfa⟩ := hp
    have hpa : p.1 = a := by
      by_cases h1 : (pyStartswith a "__" || ATTR_IGNORE_LIST.contains a) = true
      · rw [if_pos h1] at hfa
        exact absurd hfa (by simp)
      · rw [if_neg h1] at hfa
        by_cases h2 : (!pyIsIdentifier a) = true
        · rw [if_pos h2] at hfa
          exact absurd hfa (by simp)
        · rw [if_neg h2] at hfa
          cases hga : getattr a with
          | some v =>
            rw [hga] at hfa
            cases hfa
            rfl
          | none =>
            rw [hga] at hfa
            exact absurd hfa (by simp)
    have han : a = n := by rw [← hpa, hpn]
    rw [han] at hfa
    rw [attr_generator_step_none n getattr h] at hfa
    exact absurd hfa (by simp)

/-- Claim C5: for every entity kind and input, an attribute name starting
with the reserved dunder prefix, or in the configured ignore list, or not a
valid identifier, is skipped before classification: it is never yielded by
`attr_generator`, and removing it from the attribute list (or the module
dict) leaves every generator's output - and hence every emitted stub -
unchanged. -/
theorem c5_theorem (n : String)
    (h : pyStartswith n "__" = true ∨ n ∈ ATTR_IGNORE_LIST ∨ pyIsIdentifier n = false) :
    (∀ (clsName : String) (attrs : List String) (getattr : String → Option PyValue),
      attr_generator clsName attrs getattr =
        attr_generator clsName (attrs.filter (fun a => a != n)) getattr ∧
      n ∉ (attr_generator clsName attrs getattr).map Prod.fst) ∧
    (∀ cm cls clsName attrs getattr so imp,
      generate_gobject_stubs cm cls clsName attrs getattr so imp =
        generate_gobject_stubs cm cls clsName (attrs.filter (fun a => a != n)) getattr
          so imp) ∧
    (∀ cm cls attrs so imp,
      generate_struct_stub cm cls attrs so imp =
        generate_struct_stub cm cls (attrs.filter (fun a => a != n)) so imp) ∧
    (∀ cm cls attrs so imp,
      generate_genum_stub cm cls attrs so imp =
        generate_genum_stub cm cls (attrs.filter (fun a => a != n)) so imp) ∧
    (∀ m : PyModule,
      generate_module_stub m =
        generate_module_stub ⟨m.name, m.isIntrospectionModule, m.hasOverrides,
          m.annotations, m.dict.filter (fun p => p.1 != n)⟩) := by
  refine ⟨attr_generator_drop n h, ?_, ?_, ?_, ?_⟩
  · intro cm cls clsName attrs getattr so imp
    unfold generate_gobject_stubs
    rw [(attr_generator_drop n h clsName attrs getattr).1]
  · intro cm cls attrs so imp
    unfold generate_struct_stub
    rw [(attr_generator_drop n h cls.name attrs (dictGetattr cls.dict)).1]
  · intro cm cls attrs so imp
    unfold generate_genum_stub
    rw [(attr_generator_drop n h cls.name attrs (dictGetattr cls.dict)).1]
  · intro m
    unfold generate_module_stub
    dsimp only
    have hgen : attr_generator m.name
        (pySorted ((m.dict.filter (fun p => p.1 != n)).map Prod.fst))
        (dictGetattr (m.dict.filter (fun p => p.1 != n))) =
        attr_generator m.name (pySorted (m.dict.map Prod.fst)) (dictGetattr m.dict) := by
      rw [map_fst_filter_ne, pySorted_filter]
      rw [attr_generator_congr m.name (dictGetattr (m.dict.filter (fun p => p.1 != n)))
        (dictGetattr m.dict) ((pySorted (m.dict.map Prod.fst)).filter (fun a => a != n))
        (fun a ha => by
          have hne : a ≠ n := by
            have := (List.mem_filter.mp ha).2
            simpa using this
          unfold dictGetattr
          rw [lookup_filter_ne n a hne m.dict])]
      rw [← (attr_generator_drop n h m.name (pySorted (m.dict.map Prod.fst))
        (dictGetattr m.dict)).1]
    rw [hgen]
    rfl

/-- Witness for C5: the ignore-listed name `priv` is never yielded, and an
attribute list containing it generates the same genum output as without
it. -/
theorem c5_witness :
    "priv" ∉ (attr_generator "Color" ["blue", "priv"]
      (fun _ => some (.intVal 3))).map Prod.fst ∧
    attr_generator "Color" ["blue", "priv"] (fun _ => some (.intVal 3)) =
      attr_generator "Color" ["blue"] (fun _ => some (.intVal 3)) := by
  have h := c5_theorem "priv" (Or.inr (Or.inl (by decide)))
  refine ⟨(h.1 "Color" ["blue", "priv"] (fun _ => some (.intVal 3))).2, ?_⟩
  have h2 := (h.1 "Color" ["blue", "priv"] (fun _ => some (.intVal 3))).1
  rw [h2]
  have : (["blue", "priv"].filter (fun a => a != "priv")) = ["blue"] := by decide
  rw [this]

/-- A struct attribute loop containing a surviving name that is in neither
the field map nor the method map never produces output. -/
theorem struct_loop_not_ok (cm clsName : String)
    (field_map : List (String × GITypeInfo)) (method_map : List (String × GICallable))
    (so : String → List String) :
    ∀ (ys : List (String × PyValue)) (imp : Imports),
    (∃ n v, (n, v) ∈ ys ∧ field_map.lookup n = none ∧ method_map.lookup n = none) →
    (struct_stub_loop cm clsName field_map method_map so ys imp).isOk = false
  | [], _, h => by
    obtain ⟨n, v, hmem, _, _⟩ := h
    exact absurd hmem (by simp)
  | (a, b) :: rest, imp, h => by
    obtain ⟨n, v, hmem, hf, hm⟩ := h
    simp only [struct_stub_loop]
    cases hfa : field_map.lookup a with
    | some ft =>
      have htail : (n, v) ∈ rest := by
        rcases List.mem_cons.mp hmem with heq | ht
        · injection heq with h1 _
          rw [h1] at hf
          rw [hfa] at hf
          exact absurd hf (by simp)
        · exact ht
      cases hff : format_fieldinfo cm a ft imp with
      | error e => simp [hff, Except.isOk, Except.toBool]
      | ok p =>
        obtain ⟨s, imp1⟩ := p
        have ih := struct_loop_not_ok cm clsName field_map method_map so rest imp1
          ⟨n, v, htail, hf, hm⟩
        cases hloop : struct_stub_loop cm clsName field_map method_map so rest imp1 with
        | error e => simp [hff, hloop, Except.isOk, Except.toBool]
        | ok q =>
          rw [hloop] at ih
          simp [Except.isOk, Except.toBool] at ih
    | none =>
      cases hma : method_map.lookup a with
      | some mi =>
        have htail : (n, v) ∈ rest := by
          rcases List.mem_cons.mp hmem with heq | ht
          · injection heq with h1 _
            rw [h1] at hm
            rw [hma] at hm
            exact absurd hm (by simp)
          · exact ht
        cases hff : format_functioninfo cm a (.giFunc mi) false imp with
        | error e => simp [hff, Except.isOk, Except.toBool]
        | ok p =>
          obtain ⟨s, imp1⟩ := p
          have ih := struct_loop_not_ok cm clsName field_map method_map so rest imp1
            ⟨n, v, htail, hf, hm⟩
          cases hloop : struct_stub_loop cm clsName field_map method_map so rest imp1 with
          | error e => simp [hff, hloop, Except.isOk, Except.toBool]
          | ok q =>
            rw [hloop] at ih
            simp [Except.isOk, Except.toBool] at ih
      | none => simp [hfa, hma, Except.isOk, Except.toBool]

/-- A module attribute loop containing a non-skipped class whose stub
generation always fails never produces output: the failure aborts the
module run. -/
theorem module_loop_not_ok (cm : String) (mcls : ClsLike) :
    ∀ (ys : List (String × PyValue)),
    (∃ nm c, (nm, PyValue.classVal c) ∈ ys ∧
      pyEndswith nm "Class" = false ∧ pyEndswith nm "Private" = false ∧
      c.module ≠ "gi._glib" ∧
      (∀ imp2 : Imports, (generate_class_stubs cm c imp2).isOk = false)) →
    ∀ imp : Imports, (module_attr_loop cm mcls ys imp).isOk = false
  | [], h => by
    obtain ⟨nm, c, hmem, _⟩ := h
    exact absurd hmem (by simp)
  | (a, b) :: rest, h => by
    intro imp
    obtain ⟨nm, c, hmem, hc1, hc2, hg, hfail⟩ := h
    rcases List.mem_cons.mp hmem with heq | htail
    · injection heq with h1 h2
      subst h1
      subst h2
      simp only [module_attr_loop]
      rw [if_neg (by rw [hc1, hc2]; simp)]
      rw [if_neg (by simpa using hg)]
      have hf := hfail imp
      cases hcls : generate_class_stubs cm c imp with
      | error e => simp [hcls, Except.isOk, Except.toBool]
      | ok q =>
        rw [hcls] at hf
        simp [Except.isOk, Except.toBool] at hf
    · have ih := module_loop_not_ok cm mcls rest
        ⟨nm, c, htail, hc1, hc2, hg, hfail⟩
      simp only [module_attr_loop]
      cases b <;> dsimp only <;>
        first
        | (by_cases hskip : (pyEndswith a "Class" || pyEndswith a "Private") = true
           · rw [if_pos hskip]
             exact ih imp
           · rw [if_neg hskip]
             rename_i c0
             by_cases hglib : c0.module = "gi._glib"
             · rw [if_pos (by simpa using hglib)]
               exact ih imp
             · rw [if_neg (by simpa using hglib)]
               cases hcls : generate_class_stubs cm c0 imp with
               | error e => simp [hcls, Except.isOk, Except.toBool]
               | ok q =>
                 obtain ⟨cls_lines, imp1⟩ := q
                 have ihc := ih imp1
                 cases hloop : module_attr_loop cm mcls rest imp1 with
                 | error e => simp [hcls, hloop, Except.isOk, Except.toBool]
                 | ok r =>
                   rw [hloop] at ihc
                   simp [Except.isOk, Except.toBool] at ihc)
        | (split
           · simp [Except.isOk, Except.toBool]
           · split
             · simp [Except.isOk, Except.toBool]
             · rename_i hloop
               exact absurd (ih _) (by rw [hloop]; simp [Except.isOk, Except.toBool]))

/-- A struct/union stub generation run whose surviving attributes include a
name in neither map produces no output. -/
theorem struct_stub_not_ok (cm : String) (cls : PyClass) (attrs : List String)
    (so : String → List String) (imp : Imports) (n : String) (v : PyValue)
    (hmem : (n, v) ∈ attr_generator cls.name attrs (dictGetattr cls.dict))
    (hf : (struct_maps cls.info).1.lookup n = none)
    (hm : (struct_maps cls.info).2.lookup n = none) :
    (generate_struct_stub cm cls attrs so imp).isOk = false := by
  unfold generate_struct_stub
  exact struct_loop_not_ok cm cls.name (struct_maps cls.info).1 (struct_maps cls.info).2
    so (attr_generator cls.name attrs (dictGetattr cls.dict)) imp ⟨n, v, hmem, hf, hm⟩

/-- Class-level abort: a struct/union class with an unmatched surviving
attribute yields no class stub. -/
theorem class_struct_not_ok (cm : String) (cls : PyClass) (imp : Imports)
    (hkind : (∃ fs ms, cls.info = some (.structInfo fs ms)) ∨
      (∃ fs ms, cls.info = some (.unionInfo fs ms)))
    (hbad : ∃ n v, (n, v) ∈ attr_generator cls.name
        (pySorted (cls.dict.map Prod.fst)) (dictGetattr cls.dict) ∧
      (struct_maps cls.info).1.lookup n = none ∧
      (struct_maps cls.info).2.lookup n = none) :
    (generate_class_stubs cm cls imp).isOk = false := by
  obtain ⟨n, v, hmem, hf, hm⟩ := hbad
  have hb := struct_stub_not_ok cm cls (pySorted (cls.dict.map Prod.fst)) stub_out_lines
    (format_gi_class cm cls.name cls.giNS cls.gtypeParent imp).2 n v hmem hf hm
  unfold generate_class_stubs
  rcases hkind with ⟨fs, ms, hinfo⟩ | ⟨fs, ms, hinfo⟩ <;>
    (rw [hinfo]
     dsimp only
     cases hbody : generate_struct_stub cm cls (pySorted (cls.dict.map Prod.fst))
         stub_out_lines (format_gi_class cm cls.name cls.giNS cls.gtypeParent imp).2 with
     | error e => simp [hbody, Except.isOk, Except.toBool]
     | ok q =>
       rw [hbody] at hb
       simp [Except.isOk, Except.toBool] at hb)

/-- Claim C6: for struct/union entities every surviving attribute is looked
up in the field map first and then the method map; a surviving attribute in
neither map aborts generation - the struct generator, the class stub and
the whole module run produce no output - rather than being skipped or
yielding partial output. -/
theorem c6_theorem :
    (∀ (cm : String) (cls : PyClass) (attrs : List String) (so : String → List String)
      (imp : Imports) (n : String) (v : PyValue),
      (n, v) ∈ attr_generator cls.name attrs (dictGetattr cls.dict) →
      (struct_maps cls.info).1.lookup n = none →
      (struct_maps cls.info).2.lookup n = none →
      (generate_struct_stub cm cls attrs so imp).isOk = false) ∧
    (∀ (cm clsName : String) (fm : List (String × GITypeInfo))
      (mm : List (String × GICallable)) (so : String → List String)
      (n : String) (v : PyValue) (rest : List (String × PyValue)) (imp : Imports)
      (ft : GITypeInfo) (s : String) (imp1 : Imports) (lines : List String)
      (imp2 : Imports),
      fm.lookup n = some ft →
      format_fieldinfo cm n ft imp = .ok (s, imp1) →
      struct_stub_loop cm clsName fm mm so rest imp1 = .ok (lines, imp2) →
      struct_stub_loop cm clsName fm mm so ((n, v) :: rest) imp =
        .ok (so s ++ lines, imp2)) ∧
    (∀ (cm : String) (cls : PyClass) (imp : Imports),
      ((∃ fs ms, cls.info = some (.structInfo fs ms)) ∨
        (∃ fs ms, cls.info = some (.unionInfo fs ms))) →
      (∃ n v, (n, v) ∈ attr_generator cls.name
          (pySorted (cls.dict.map Prod.fst)) (dictGetattr cls.dict) ∧
        (struct_maps cls.info).1.lookup n = none ∧
        (struct_maps cls.info).2.lookup n = none) →
      (generate_class_stubs cm cls imp).isOk = false) ∧
    (∀ (m : PyModule) (nm : String) (c : PyClass),
      (nm, PyValue.classVal c) ∈ attr_generator m.name
        (pySorted (m.dict.map Prod.fst)) (dictGetattr m.dict) →
      pyEndswith nm "Class" = false → pyEndswith nm "Private" = false →
      c.module ≠ "gi._glib" →
      ((∃ fs ms, c.info = some (.structInfo fs ms)) ∨
        (∃ fs ms, c.info = some (.unionInfo fs ms))) →
      (∃ n v, (n, v) ∈ attr_generator c.name
          (pySorted (c.dict.map Prod.fst)) (dictGetattr c.dict) ∧
        (struct_maps c.info).1.lookup n = none ∧
        (struct_maps c.info).2.lookup n = none) →
      (generate_module_stub m).isOk = false) := by
  refine ⟨struct_stub_not_ok, ?_, class_struct_not_ok, ?_⟩
  · intro cm clsName fm mm so n v rest imp ft s imp1 lines imp2 hf hff hloop
    simp only [struct_stub_loop]
    rw [hf]
    simp [hff, hloop]
  · intro m nm c hmem hc1 hc2 hg hkind hbad
    unfold generate_module_stub
    by_cases hint : (!(m.isIntrospectionModule || m.hasOverrides)) = true
    · rw [if_pos hint]
      simp [Except.isOk, Except.toBool]
    · rw [if_neg hint]
      have hl := module_loop_not_ok m.name m.asClsLike
        (attr_generator m.name (pySorted (m.dict.map Prod.fst)) (dictGetattr m.dict))
        ⟨nm, c, hmem, hc1, hc2, hg,
          fun imp2 => class_struct_not_ok m.name c imp2 hkind hbad⟩ ["typing"]
      cases hloop : module_attr_loop m.name m.asClsLike
          (attr_generator m.name (pySorted (m.dict.map Prod.fst)) (dictGetattr m.dict))
          ["typing"] with
      | error e => simp [hloop, Except.isOk, Except.toBool]
      | ok q =>
        rw [hloop] at hl
        simp [Except.isOk, Except.toBool] at hl

/-- A struct method record (`area`) for the C6 example entity. -/
def fn_area : GICallable := .mk false true true false true ti_int32 .anil

/-- The spec's C6 example entity: a struct whose field map contains `x`,
whose method map contains `area`, and whose dict carries a surviving
attribute `bogus` matching neither. -/
def cls_c6 : PyClass := .mk "gi.repository.Gdk" "Shape" none none
  (some (.structInfo [("x", ti_int32)] [("area", fn_area)]))
  [] [] []
  [("area", some (.funcInfoVal fn_area)), ("bogus", some .propVal), ("x", some .propVal)]

/-- Witness for C6: on the example entity both the struct generator and the
class stub builder abort with no output. -/
theorem c6_witness :
    (generate_struct_stub "Gdk" cls_c6 ["area", "bogus", "x"] stub_out_lines []).isOk
      = false ∧
    (generate_class_stubs "Gdk" cls_c6 []).isOk = false := by
  have hg : attr_generator cls_c6.name ["area", "bogus", "x"] (dictGetattr cls_c6.dict) =
      [("area", .funcInfoVal fn_area), ("bogus", .propVal), ("x", .propVal)] := by rfl
  have hg2 : attr_generator cls_c6.name (pySorted (cls_c6.dict.map Prod.fst))
      (dictGetattr cls_c6.dict) =
      [("area", .funcInfoVal fn_area), ("bogus", .propVal), ("x", .propVal)] := by rfl
  have hmem : ("bogus", PyValue.propVal) ∈ attr_generator cls_c6.name
      ["area", "bogus", "x"] (dictGetattr cls_c6.dict) := by
    rw [hg]
    simp
  have hmem2 : ("bogus", PyValue.propVal) ∈ attr_generator cls_c6.name
      (pySorted (cls_c6.dict.map Prod.fst)) (dictGetattr cls_c6.dict) := by
    rw [hg2]
    simp
  refine ⟨c6_theorem.1 "Gdk" cls_c6 ["area", "bogus", "x"] stub_out_lines []
      "bogus" .propVal hmem (by rfl) (by rfl), ?_⟩
  exact c6_theorem.2.2.1 "Gdk" cls_c6 []
    (Or.inl ⟨[("x", ti_int32)], [("area", fn_area)], rfl⟩)
    ⟨"bogus", .propVal, hmem2, by rfl, by rfl⟩

/-- Claim C7: for enum/flags entities the expected member values come from
the flags/enum value map; each surviving attribute whose name is uppercase
and whose value is in the declared set is emitted as a typed constant; a
`FunctionInfo` attribute failing that test is emitted as a method; any
other attribute failing it is skipped (emitting nothing); and the
`LEVEL_MASK` numeric-overflow special case is accepted outright as a
constant. -/
theorem c7_theorem :
    (∀ (cm : String) (cls : PyClass) (attrs : List String) (so : String → List String)
      (imp : Imports),
      generate_genum_stub cm cls attrs so imp =
        genum_stub_loop cm
          ((fun is_flags => if is_flags then cls.flags_values else cls.enum_values)
            (match cls.info with | some (.enumInfo b) => b | _ => false)) so
          (attr_generator cls.name attrs (dictGetattr cls.dict)) imp) ∧
    (∀ (cm : String) (expected : List Int) (so : String → List String) (n : String)
      (v : PyValue) (rest : List (String × PyValue)) (imp : Imports) (s : String)
      (imp1 : Imports) (lines : List String) (imp2 : Imports),
      n ≠ "LEVEL_MASK" → pyIsUpper n = true → pyValueInExpected v expected = true →
      format_variable cm n v imp = (s, imp1) →
      genum_stub_loop cm expected so rest imp1 = .ok (lines, imp2) →
      genum_stub_loop cm expected so ((n, v) :: rest) imp = .ok (so s ++ lines, imp2)) ∧
    (∀ (cm : String) (expected : List Int) (so : String → List String) (n : String)
      (i : GICallable) (rest : List (String × PyValue)) (imp : Imports) (s : String)
      (imp1 : Imports) (lines : List String) (imp2 : Imports),
      n ≠ "LEVEL_MASK" →
      ¬(pyIsUpper n = true ∧ pyValueInExpected (.funcInfoVal i) expected = true) →
      format_functioninfo cm n (.giFunc i) false imp = .ok (s, imp1) →
      genum_stub_loop cm expected so rest imp1 = .ok (lines, imp2) →
      genum_stub_loop cm expected so ((n, .funcInfoVal i) :: rest) imp =
        .ok (so s ++ lines, imp2)) ∧
    (∀ (cm : String) (expected : List Int) (so : String → List String) (n : String)
      (v : PyValue) (rest : List (String × PyValue)) (imp : Imports),
      n ≠ "LEVEL_MASK" →
      ¬(pyIsUpper n = true ∧ pyValueInExpected v expected = true) →
      (∀ i, v ≠ .funcInfoVal i) →
      genum_stub_loop cm expected so ((n, v) :: rest) imp =
        genum_stub_loop cm expected so rest imp) ∧
    (∀ (cm : String) (expected : List Int) (so : String → List String) (v : PyValue)
      (rest : List (String × PyValue)) (imp : Imports) (s : String) (imp1 : Imports)
      (lines : List String) (imp2 : Imports),
      format_variable cm "LEVEL_MASK" v imp = (s, imp1) →
      genum_stub_loop cm expected so rest imp1 = .ok (lines, imp2) →
      genum_stub_loop cm expected so (("LEVEL_MASK", v) :: rest) imp =
        .ok (so s ++ lines, imp2)) := by
  refine ⟨fun cm cls attrs so imp => rfl, ?_, ?_, ?_, ?_⟩
  · intro cm expected so n v rest imp s imp1 lines imp2 hnl hup hin hfv hloop
    simp only [genum_stub_loop]
    rw [if_neg hnl]
    rw [if_neg (by rw [hup, hin]; simp)]
    rw [hfv]
    dsimp only
    rw [hloop]
  · intro cm expected so n i rest imp s imp1 lines imp2 hnl hfail hff hloop
    simp only [genum_stub_loop]
    rw [if_neg hnl]
    rw [if_pos (by
      cases hup : pyIsUpper n with
      | false => simp
      | true =>
        cases hin : pyValueInExpected (.funcInfoVal i) expected with
        | false => simp
        | true => exact absurd ⟨hup, hin⟩ hfail)]
    rw [hff]
    dsimp only
    rw [hloop]
  · intro cm expected so n v rest imp hnl hfail hnf
    have hcond : (!pyIsUpper n || !pyValueInExpected v expected) = true := by
      cases hup : pyIsUpper n with
      | false => simp
      | true =>
        cases hin : pyValueInExpected v expected with
        | false => simp
        | true => exact absurd ⟨hup, hin⟩ hfail
    cases v with
    | funcInfoVal i => exact absurd rfl (hnf i)
    | _ =>
      simp only [genum_stub_loop]
      rw [if_neg hnl]
      rw [if_pos hcond]
  · intro cm expected so v rest imp s imp1 lines imp2 hfv hloop
    simp only [genum_stub_loop, if_true]
    rw [hfv]
    dsimp only
    rw [hloop]

/-- The spec's C7 example entity: a flags entity with declared members
`{A: 1, B: 2}` and a surviving attribute `C` with value 3 outside the
declared set. -/
def cls_c7 : PyClass := .mk "gi.repository.GLib" "TestFlags" none none
  (some (.enumInfo true)) [] [1, 2] []
  [("A", some (.gobjVal "TestFlags" (some 1))),
   ("B", some (.gobjVal "TestFlags" (some 2))),
   ("C", some (.gobjVal "TestFlags" (some 3)))]

/-- Witness for C7: `A` and `B` are emitted as typed constants and `C` is
omitted from the output. -/
theorem c7_witness :
    generate_genum_stub "GLib" cls_c7 ["A", "B", "C"] (fun s => [s]) [] =
      .ok (["A = ...  # type: TestFlags", "B = ...  # type: TestFlags"], []) := by
  have h1 := c7_theorem.1 "GLib" cls_c7 ["A", "B", "C"] (fun s => [s]) []
  rw [h1]
  show genum_stub_loop "GLib" [1, 2] (fun s => [s])
    [("A", .gobjVal "TestFlags" (some 1)), ("B", .gobjVal "TestFlags" (some 2)),
     ("C", .gobjVal "TestFlags" (some 3))] [] = _
  have hskip := c7_theorem.2.2.2.1 "GLib" [1, 2] (fun s => [s]) "C"
    (.gobjVal "TestFlags" (some 3)) [] [] (by decide) (by decide)
    (fun i h => PyValue.noConfusion h)
  have hB := c7_theorem.2.1 "GLib" [1, 2] (fun s => [s]) "B"
    (.gobjVal "TestFlags" (some 2)) [("C", .gobjVal "TestFlags" (some 3))] []
    "B = ...  # type: TestFlags" [] [] [] (by decide) (by decide) (by decide)
    (by rfl) (hskip.trans (by rfl))
  have hA := c7_theorem.2.1 "GLib" [1, 2] (fun s => [s]) "A"
    (.gobjVal "TestFlags" (some 1))
    [("B", .gobjVal "TestFlags" (some 2)), ("C", .gobjVal "TestFlags" (some 3))] []
    "A = ...  # type: TestFlags" [] ["B = ...  # type: TestFlags"] []
    (by decide) (by decide) (by decide) (by rfl) (hB.trans (by rfl))
  exact hA.trans (by rfl)

/-- `set.add` only grows the import set. -/
theorem setAdd_subset (imp : Imports) (m : String) : imp ⊆ setAdd imp m := by
  unfold setAdd
  split
  · exact fun x hx => hx
  · exact fun x hx => List.mem_append_left _ hx

/-- `format_module` only grows the import set. -/
theorem format_module_subset (cm : String) (cls : ClsRef) (imp : Imports) :
    imp ⊆ (format_module cm cls imp).2 := by
  unfold format_module
  dsimp only
  split
  · exact fun x hx => hx
  · exact setAdd_subset imp _

/-- `format_gi_class` only grows the import set. -/
theorem format_gi_class_subset (cm name : String) (giNS : Option (String × String))
    (parent : Option ClsRef) (imp : Imports) :
    imp ⊆ (format_gi_class cm name giNS parent imp).2 := by
  unfold format_gi_class
  cases parent with
  | none => exact fun x hx => hx
  | some p => exact format_module_subset cm p imp

/-- Extracting import-set growth from a successful pair-valued result that
returned its input set unchanged. -/
theorem subset_of_pair_ok {α : Type} {x : α} {imp imp2 : Imports} {r : α}
    (h : (Except.ok (x, imp) : Except String (α × Imports)) = .ok (r, imp2)) :
    imp ⊆ imp2 := by
  cases h
  exact fun a ha => ha

mutual

/-- `get_typeinfo` only grows the import set. -/
theorem get_typeinfo_subset (cm : String) : ∀ (ti : GITypeInfo) (imp : Imports)
    (r : PyType) (imp2 : Imports),
    get_typeinfo cm ti imp = .ok (r, imp2) → imp ⊆ imp2
  | .mk tag is_ptr .noIface (some pt), imp, r, imp2, h => by
    simp only [get_typeinfo, GTypeTag.from_typeinfo, GITypeInfo.tag] at h
    cases hg : GTypeTag.ofNat? tag with
    | none => rw [hg] at h; exact absurd h (by simp)
    | some g =>
      rw [hg] at h
      cases g <;> dsimp only at h <;>
        first
        | (simp only [GTypeTag.as_pytype, if_true, if_false] at h
           exact subset_of_pair_ok h)
        | (simp only [GTypeTag.as_pytype, if_true, if_false] at h
           cases hres : get_typeinfo cm pt imp with
           | error e => rw [hres] at h; exact absurd h (by simp)
           | ok p =>
             obtain ⟨lt, imp1⟩ := p
             rw [hres] at h
             dsimp only at h
             cases h
             exact get_typeinfo_subset cm pt imp _ _ hres)
  | .mk tag is_ptr .noIface none, imp, r, imp2, h => by
    simp only [get_typeinfo, GTypeTag.from_typeinfo, GITypeInfo.tag] at h
    cases hg : GTypeTag.ofNat? tag with
    | none => rw [hg] at h; exact absurd h (by simp)
    | some g =>
      rw [hg] at h
      cases g <;> dsimp only at h <;>
        first
        | (simp only [GTypeTag.as_pytype, if_true, if_false] at h
           exact subset_of_pair_ok h)
        | (simp only [GTypeTag.as_pytype, if_true, if_false] at h
           exact absurd h (by simp))
  | .mk tag is_ptr .otherIface (some pt), imp, r, imp2, h => by
    simp only [get_typeinfo, GTypeTag.from_typeinfo, GITypeInfo.tag] at h
    cases hg : GTypeTag.ofNat? tag with
    | none => rw [hg] at h; exact absurd h (by simp)
    | some g =>
      rw [hg] at h
      cases g <;> dsimp only at h <;>
        first
        | (simp only [GTypeTag.as_pytype, if_true, if_false] at h
           exact subset_of_pair_ok h)
        | (simp only [GTypeTag.as_pytype, if_true, if_false] at h
           cases hres : get_typeinfo cm pt imp with
           | error e => rw [hres] at h; exact absurd h (by simp)
           | ok p =>
             obtain ⟨lt, imp1⟩ := p
             rw [hres] at h
             dsimp only at h
             cases h
             exact get_typeinfo_subset cm pt imp _ _ hres)
  | .mk tag is_ptr .otherIface none, imp, r, imp2, h => by
    simp only [get_typeinfo, GTypeTag.from_typeinfo, GITypeInfo.tag] at h
    cases hg : GTypeTag.ofNat? tag with
    | none => rw [hg] at h; exact absurd h (by simp)
    | some g =>
      rw [hg] at h
      cases g <;> dsimp only at h <;>
        first
        | (simp only [GTypeTag.as_pytype, if_true, if_false] at h
           exact subset_of_pair_ok h)
        | (simp only [GTypeTag.as_pytype, if_true, if_false] at h
           exact absurd h (by simp))
  | .mk tag is_ptr (.registeredIface cls) (some pt), imp, r, imp2, h => by
    simp only [get_typeinfo, GTypeTag.from_typeinfo, GITypeInfo.tag] at h
    cases hg : GTypeTag.ofNat? tag with
    | none => rw [hg] at h; exact absurd h (by simp)
    | some g =>
      rw [hg] at h
      cases g <;> dsimp only at h <;>
        first
        | (simp only [GTypeTag.as_pytype, if_true, if_false] at h
           exact subset_of_pair_ok h)
        | (cases hfm : format_module cm cls imp with
           | mk s i1 =>
             rw [hfm] at h
             dsimp only at h
             cases h
             have hfs := format_module_subset cm cls imp
             rw [hfm] at hfs
             exact hfs)
        | (simp only [GTypeTag.as_pytype, if_true, if_false] at h
           cases hres : get_typeinfo cm pt imp with
           | error e => rw [hres] at h; exact absurd h (by simp)
           | ok p =>
             obtain ⟨lt, imp1⟩ := p
             rw [hres] at h
             dsimp only at h
             cases h
             exact get_typeinfo_subset cm pt imp _ _ hres)
  | .mk tag is_ptr (.registeredIface cls) none, imp, r, imp2, h => by
    simp only [get_typeinfo, GTypeTag.from_typeinfo, GITypeInfo.tag] at h
    cases hg : GTypeTag.ofNat? tag with
    | none => rw [hg] at h; exact absurd h (by simp)
    | some g =>
      rw [hg] at h
      cases g <;> dsimp only at h <;>
        first
        | (simp only [GTypeTag.as_pytype, if_true, if_false] at h
           exact subset_of_pair_ok h)
        | (cases hfm : format_module cm cls imp with
           | mk s i1 =>
             rw [hfm] at h
             dsimp only at h
             cases h
             have hfs := format_module_subset cm cls imp
             rw [hfm] at hfs
             exact hfs)
        | (simp only [GTypeTag.as_pytype, if_true, if_false] at h
           exact absurd h (by simp))
  | .mk tag is_ptr (.callableIface c) (some pt), imp, r, imp2, h => by
    simp only [get_typeinfo, GTypeTag.from_typeinfo, GITypeInfo.tag] at h
    cases hg : GTypeTag.ofNat? tag with
    | none => rw [hg] at h; exact absurd h (by simp)
    | some g =>
      rw [hg] at h
      cases g <;> dsimp only at h <;>
        first
        | (simp only [GTypeTag.as_pytype, if_true, if_false] at h
           exact subset_of_pair_ok h)
        | (cases hres : details_from_funcinfo cm false c imp with
           | error e => rw [hres] at h; exact absurd h (by simp)
           | ok p =>
             obtain ⟨⟨pre, ps, rt⟩, i2⟩ := p
             rw [hres] at h
             dsimp only at h
             cases h
             exact details_from_funcinfo_subset cm false c imp _ _ hres)
        | (simp only [GTypeTag.as_pytype, if_true, if_false] at h
           cases hres : get_typeinfo cm pt imp with
           | error e => rw [hres] at h; exact absurd h (by simp)
           | ok p =>
             obtain ⟨lt, imp1⟩ := p
             rw [hres] at h
             dsimp only at h
             cases h
             exact get_typeinfo_subset cm pt imp _ _ hres)
  | .mk tag is_ptr (.callableIface c) none, imp, r, imp2, h => by
    simp only [get_typeinfo, GTypeTag.from_typeinfo, GITypeInfo.tag] at h
    cases hg : GTypeTag.ofNat? tag with
    | none => rw [hg] at h; exact absurd h (by simp)
    | some g =>
      rw [hg] at h
      cases g <;> dsimp only at h <;>
        first
        | (simp only [GTypeTag.as_pytype, if_true, if_false] at h
           exact subset_of_pair_ok h)
        | (cases hres : details_from_funcinfo cm false c imp with
           | error e => rw [hres] at h; exact absurd h (by simp)
           | ok p =>
             obtain ⟨⟨pre, ps, rt⟩, i2⟩ := p
             rw [hres] at h
             dsimp only at h
             cases h
             exact details_from_funcinfo_subset cm false c imp _ _ hres)
        | (simp only [GTypeTag.as_pytype, if_true, if_false] at h
           exact absurd h (by simp))

/-- `details_from_funcinfo` only grows the import set. -/
theorem details_from_funcinfo_subset (cm : String) (strip : Bool) :
    ∀ (f : GICallable) (imp : Imports) (t : String × List PyParam × PyType)
    (imp2 : Imports),
    details_from_funcinfo cm strip f imp = .ok (t, imp2) → imp ⊆ imp2
  | .mk v fi m c hc ret args, imp, t, imp2, h => by
    simp only [details_from_funcinfo] at h
    cases hres : get_typeinfo cm ret imp with
    | error e => rw [hres] at h; exact absurd h (by simp)
    | ok p =>
      obtain ⟨r, imp1⟩ := p
      rw [hres] at h
      dsimp only at h
      cases hres2 : process_arguments cm args imp1 with
      | error e => rw [hres2] at h; exact absurd h (by simp)
      | ok q =>
        obtain ⟨⟨ps, rs⟩, impA⟩ := q
        rw [hres2] at h
        dsimp only at h
        have hsub := List.Subset.trans (get_typeinfo_subset cm ret imp r imp1 hres)
          (process_arguments_subset cm args imp1 (ps, rs) impA hres2)
        split at h
        · split at h
          · exact absurd h (by simp)
          · split at h
            · exact absurd h (by simp)
            · cases h
              exact hsub
        · cases h
          exact hsub

/-- The argument loop only grows the import set. -/
theorem process_arguments_subset (cm : String) : ∀ (args : GIArgList) (imp : Imports)
    (pr : List PyParam × List PyType) (imp2 : Imports),
    process_arguments cm args imp = .ok (pr, imp2) → imp ⊆ imp2
  | .anil, imp, pr, imp2, h => by
    simp only [process_arguments] at h
    cases h
    exact fun x hx => hx
  | .acons n ty d rest, imp, pr, imp2, h => by
    simp only [process_arguments, get_argument_info] at h
    cases hres : get_typeinfo cm ty imp with
    | error e => rw [hres] at h; exact absurd h (by simp)
    | ok p =>
      obtain ⟨a, imp1⟩ := p
      rw [hres] at h
      dsimp only at h
      cases hres2 : process_arguments cm rest imp1 with
      | error e => rw [hres2] at h; exact absurd h (by simp)
      | ok q =>
        obtain ⟨⟨ps, rs⟩, impA⟩ := q
        rw [hres2] at h
        dsimp only at h
        have hsub := List.Subset.trans (get_typeinfo_subset cm ty imp a imp1 hres)
          (process_arguments_subset cm rest imp1 (ps, rs) impA hres2)
        cases d <;> (dsimp only at h; cases h; exact hsub)

end

/-- `make_signature` only grows the import set. -/
theorem make_signature_subset (cm : String) (strip : Bool) (f : FuncObj) (imp : Imports)
    (r : List PyParam × Option PyType × String) (imp2 : Imports)
    (h : make_signature cm strip f imp = .ok (r, imp2)) : imp ⊆ imp2 := by
  cases f with
  | giFunc info =>
    simp only [make_signature] at h
    split at h
    · exact absurd h (by simp)
    · rename_i pre ps rt i1 hdf
      cases h
      exact details_from_funcinfo_subset cm strip info imp _ _ hdf
  | pyFunc params retAnn =>
    simp only [make_signature] at h
    cases h
    exact fun x hx => hx

/-- `format_functioninfo` only grows the import set. -/
theorem format_functioninfo_subset (cm an : String) (f : FuncObj) (strip : Bool)
    (imp : Imports) (s : String) (imp2 : Imports)
    (h : format_functioninfo cm an f strip imp = .ok (s, imp2)) : imp ⊆ imp2 := by
  simp only [format_functioninfo] at h
  split at h
  · exact absurd h (by simp)
  · rename_i ps ret pre i1 hms
    cases h
    exact make_signature_subset cm strip f imp _ _ hms

/-- `format_variable` only grows the import set. -/
theorem format_variable_subset (cm name : String) (v : PyValue) (imp : Imports) :
    imp ⊆ (format_variable cm name v imp).2 := by
  cases v <;>
    first
    | exact fun x hx => hx
    | (simp only [format_variable]
       cases hfm : format_module cm type_metaclass imp with
       | mk ts i1 =>
         have hfs := format_module_subset cm type_metaclass imp
         rw [hfm] at hfs
         exact hfs)

/-- `format_fieldinfo` only grows the import set. -/
theorem format_fieldinfo_subset (cm an : String) (ft : GITypeInfo) (imp : Imports)
    (s : String) (imp2 : Imports)
    (h : format_fieldinfo cm an ft imp = .ok (s, imp2)) : imp ⊆ imp2 := by
  simp only [format_fieldinfo] at h
  split at h
  · exact absurd h (by simp)
  · rename_i pt i1 hgt
    cases h
    exact get_typeinfo_subset cm ft imp _ _ hgt

/-- The tail of the `generic_attr_stubber` priority chain only grows the import
set. -/
theorem generic_attr_stubber_tail_subset (cm : String) (cls : ClsLike) (an : String)
    (attr : PyValue) (imp : Imports) (os : Option String) (imp2 : Imports)
    (h : generic_attr_stubber_tail cm cls an attr imp = .ok (os, imp2)) : imp ⊆ imp2 := by
  simp only [generic_attr_stubber_tail] at h
  split at h
  · rename_i ft hlf
    split at h
    · exact absurd h (by simp)
    · rename_i s i1 hff
      cases h
      exact format_fieldinfo_subset cm an ft imp _ _ hff
  · split at h
    · split at h
      · exact absurd h (by simp)
      · rename_i m hma
        split at h
        · cases h; exact fun x hx => hx
        · cases h; exact fun x hx => hx
    · rename_i tn iv
      cases h
      exact format_variable_subset cm an _ imp
    · cases h; exact fun x hx => hx
    · cases h; exact fun x hx => hx
    · cases h; exact fun x hx => hx
    · cases h; exact fun x hx => hx
    · cases h; exact fun x hx => hx

/-- `generic_attr_stubber` only grows the import set. -/
theorem generic_attr_stubber_subset (cm : String) (cls : ClsLike) (an : String)
    (attr : PyValue) (imp : Imports) (os : Option String) (imp2 : Imports)
    (h : generic_attr_stubber cm cls an attr imp = .ok (os, imp2)) : imp ⊆ imp2 := by
  simp only [generic_attr_stubber] at h
  split at h
  · rename_i qn w
    split at h
    · split at h
      · exact absurd h (by simp)
      · rename_i s i1 hff
        cases h
        exact format_functioninfo_subset cm an (.giFunc w) true imp _ _ hff
    · split at h
      · exact absurd h (by simp)
      · rename_i s i1 hff
        cases h
        exact format_functioninfo_subset cm an (.giFunc w) false imp _ _ hff
  · rename_i info
    split at h
    · exact absurd h (by simp)
    · rename_i s i1 hff
      cases h
      exact format_functioninfo_subset cm an (.giFunc info) false imp _ _ hff
  · rename_i info
    split at h
    · exact absurd h (by simp)
    · rename_i s i1 hff
      cases h
      exact format_functioninfo_subset cm an (.giFunc info) false imp _ _ hff
  · rename_i ps ra
    split at h
    · exact absurd h (by simp)
    · rename_i m hma
      split at h
      · split at h
        · exact absurd h (by simp)
        · rename_i s i1 hff
          cases h
          exact format_functioninfo_subset cm an (.pyFunc ps ra) false imp _ _ hff
      · exact generic_attr_stubber_tail_subset cm cls an _ imp os imp2 h
  · exact generic_attr_stubber_tail_subset cm cls an _ imp os imp2 h

/-- The attribute loop of `generate_gobject_stubs` only grows the import
set. -/
theorem gobject_stub_loop_subset (cm : String) (cls : ClsLike) (so : String → List String) :
    ∀ (l : List (String × PyValue)) (imp : Imports) (lines : List String) (imp2 : Imports),
    gobject_stub_loop cm cls so l imp = .ok (lines, imp2) → imp ⊆ imp2
  | [], imp, lines, imp2, h => by
    simp only [gobject_stub_loop] at h
    cases h
    exact fun x hx => hx
  | (an, av) :: rest, imp, lines, imp2, h => by
    simp only [gobject_stub_loop] at h
    split at h
    · exact absurd h (by simp)
    · rename_i i1 hga
      exact List.Subset.trans (generic_attr_stubber_subset cm cls an av imp none i1 hga)
        (gobject_stub_loop_subset cm cls so rest i1 lines imp2 h)
    · rename_i s i1 hga
      split at h
      · exact absurd h (by simp)
      · rename_i ls iF hml
        cases h
        exact List.Subset.trans (generic_attr_stubber_subset cm cls an av imp (some s) i1 hga)
          (gobject_stub_loop_subset cm cls so rest i1 _ _ hml)

/-- The attribute loop of `generate_struct_stub` only grows the import
set. -/
theorem struct_stub_loop_subset (cm clsName : String)
    (fm : List (String × GITypeInfo)) (mm : List (String × GICallable))
    (so : String → List String) :
    ∀ (l : List (String × PyValue)) (imp : Imports) (lines : List String) (imp2 : Imports),
    struct_stub_loop cm clsName fm mm so l imp = .ok (lines, imp2) → imp ⊆ imp2
  | [], imp, lines, imp2, h => by
    simp only [struct_stub_loop] at h
    cases h
    exact fun x hx => hx
  | (an, av) :: rest, imp, lines, imp2, h => by
    simp only [struct_stub_loop] at h
    split at h
    · rename_i ft hlf
      split at h
      · exact absurd h (by simp)
      · rename_i s i1 hff
        split at h
        · exact absurd h (by simp)
        · rename_i ls iF hsl
          cases h
          exact List.Subset.trans (format_fieldinfo_subset cm an ft imp _ _ hff)
            (struct_stub_loop_subset cm clsName fm mm so rest i1 _ _ hsl)
    · split at h
      · rename_i mi hlm
        split at h
        · exact absurd h (by simp)
        · rename_i s i1 hff
          split at h
          · exact absurd h (by simp)
          · rename_i ls iF hsl
            cases h
            exact List.Subset.trans (format_functioninfo_subset cm an (.giFunc mi) false imp _ _ hff)
              (struct_stub_loop_subset cm clsName fm mm so rest i1 _ _ hsl)
      · exact absurd h (by simp)

/-- The attribute loop of `generate_genum_stub` only grows the import
set. -/
theorem genum_stub_loop_subset (cm : String) (expected : List Int)
    (so : String → List String) :
    ∀ (l : List (String × PyValue)) (imp : Imports) (lines : List String) (imp2 : Imports),
    genum_stub_loop cm expected so l imp = .ok (lines, imp2) → imp ⊆ imp2
  | [], imp, lines, imp2, h => by
    simp only [genum_stub_loop] at h
    cases h
    exact fun x hx => hx
  | (an, av) :: rest, imp, lines, imp2, h => by
    simp only [genum_stub_loop] at h
    split at h
    · split at h
      · exact absurd h (by simp)
      · rename_i ls iF hgl
        cases h
        exact List.Subset.trans (format_variable_subset cm an av imp)
          (genum_stub_loop_subset cm expected so rest _ _ _ hgl)
    · split at h
      · cases av <;>
          try exact genum_stub_loop_subset cm expected so rest imp lines imp2 h
        case funcInfoVal =>
          rename GICallable => info
          dsimp only at h
          split at h
          · exact absurd h (by simp)
          · rename_i s i1 hff
            split at h
            · exact absurd h (by simp)
            · rename_i ls iF hgl
              cases h
              exact List.Subset.trans
                (format_functioninfo_subset cm an (.giFunc info) false imp _ _ hff)
                (genum_stub_loop_subset cm expected so rest i1 _ _ hgl)
      · split at h
        · exact absurd h (by simp)
        · rename_i ls iF hgl
          cases h
          exact List.Subset.trans (format_variable_subset cm an av imp)
            (genum_stub_loop_subset cm expected so rest _ _ _ hgl)

/-- `generate_gobject_stubs` only grows the import set. -/
theorem generate_gobject_stubs_subset (cm : String) (cls : ClsLike) (clsName : String)
    (attrs : List String) (ga : String → Option PyValue) (so : String → List String)
    (imp : Imports) (r : List String) (imp2 : Imports)
    (h : generate_gobject_stubs cm cls clsName attrs ga so imp = .ok (r, imp2)) :
    imp ⊆ imp2 := by
  simp only [generate_gobject_stubs] at h
  exact gobject_stub_loop_subset _ _ _ _ _ _ _ h

/-- `generate_struct_stub` only grows the import set. -/
theorem generate_struct_stub_subset (cm : String) (cls : PyClass) (attrs : List String)
    (so : String → List String) (imp : Imports) (r : List String) (imp2 : Imports)
    (h : generate_struct_stub cm cls attrs so imp = .ok (r, imp2)) : imp ⊆ imp2 := by
  simp only [generate_struct_stub] at h
  exact struct_stub_loop_subset _ _ _ _ _ _ _ _ _ h

/-- `generate_genum_stub` only grows the import set. -/
theorem generate_genum_stub_subset (cm : String) (cls : PyClass) (attrs : List String)
    (so : String → List String) (imp : Imports) (r : List String) (imp2 : Imports)
    (h : generate_genum_stub cm cls attrs so imp = .ok (r, imp2)) : imp ⊆ imp2 := by
  simp only [generate_genum_stub] at h
  exact genum_stub_loop_subset _ _ _ _ _ _ _ h

/-- `generate_class_stubs` only grows the import set. -/
theorem generate_class_stubs_subset (cm : String) (cls : PyClass) (imp : Imports)
    (lines : List String) (imp2 : Imports)
    (h : generate_class_stubs cm cls imp = .ok (lines, imp2)) : imp ⊆ imp2 := by
  have hhd := format_gi_class_subset cm cls.name cls.giNS cls.gtypeParent imp
  simp only [generate_class_stubs] at h
  split at h
  · exact absurd h (by simp)
  · rename_i ls i2 hbody
    cases h
    split at hbody
    · exact List.Subset.trans hhd (generate_gobject_stubs_subset _ _ _ _ _ _ _ _ _ hbody)
    · exact List.Subset.trans hhd (generate_gobject_stubs_subset _ _ _ _ _ _ _ _ _ hbody)
    · exact List.Subset.trans hhd (generate_gobject_stubs_subset _ _ _ _ _ _ _ _ _ hbody)
    · exact List.Subset.trans hhd (generate_struct_stub_subset _ _ _ _ _ _ _ hbody)
    · exact List.Subset.trans hhd (generate_struct_stub_subset _ _ _ _ _ _ _ hbody)
    · exact List.Subset.trans hhd (generate_genum_stub_subset _ _ _ _ _ _ _ hbody)
    · exact absurd hbody (by simp)

/-- The attribute loop of `generate_module_stub` only grows the import
set. -/
theorem module_attr_loop_subset (cm : String) (mcls : ClsLike) :
    ∀ (l : List (String × PyValue)) (imp : Imports) (lines : List String) (imp2 : Imports),
    module_attr_loop cm mcls l imp = .ok (lines, imp2) → imp ⊆ imp2
  | [], imp, lines, imp2, h => by
    simp only [module_attr_loop] at h
    cases h
    exact fun x hx => hx
  | (an, av) :: rest, imp, lines, imp2, h => by
    simp only [module_attr_loop] at h
    split at h
    · rename_i c
      split at h
      · exact module_attr_loop_subset cm mcls rest imp lines imp2 h
      · split at h
        · exact module_attr_loop_subset cm mcls rest imp lines imp2 h
        · split at h
          · exact absurd h (by simp)
          · rename_i cl i1 hcs
            split at h
            · exact absurd h (by simp)
            · rename_i ls iF hml
              cases h
              exact List.Subset.trans (generate_class_stubs_subset cm c imp _ _ hcs)
                (module_attr_loop_subset cm mcls rest i1 _ _ hml)
    · split at h
      · exact absurd h (by simp)
      · rename_i os i1 hga
        split at h
        · exact absurd h (by simp)
        · rename_i ls iF hml
          cases h
          exact List.Subset.trans (generic_attr_stubber_subset cm mcls an _ imp os i1 hga)
            (module_attr_loop_subset cm mcls rest i1 _ _ hml)

/-- C10: `generate_module_stub` seeds the accumulated import set with
`typing` before any attribute is processed, and the attribute loop only
ever grows that set; hence every successful run returns a stub whose
leading block is the sorted rendering of an import set containing
`typing`, so the line `import typing` is always among the leading import
lines, whatever the module contents. -/
theorem c10_theorem (m : PyModule) (s : String)
    (h : generate_module_stub m = .ok s) :
    ∃ impF body, "typing" ∈ impF ∧
      "import typing" ∈ (pySorted impF).map (fun i => "import " ++ i) ∧
      s = pyJoin "\n" ((pySorted impF).map (fun i => "import " ++ i)) ++ "\n" ++ body := by
  simp only [generate_module_stub] at h
  split at h
  · exact absurd h (by simp)
  · split at h
    · exact absurd h (by simp)
    · rename_i stubs impF hml
      cases h
      have hsub := module_attr_loop_subset m.name m.asClsLike
        (attr_generator m.name (pySorted (m.dict.map Prod.fst)) (dictGetattr m.dict))
        ["typing"] stubs impF hml
      have h1 : "typing" ∈ impF := hsub (by simp)
      have h2 : "typing" ∈ pySorted impF := (mem_pySorted "typing" impF).mpr h1
      have h3 : ("import " ++ "typing" : String) ∈
          (pySorted impF).map (fun i => "import " ++ i) :=
        List.mem_map_of_mem (fun i => "import " ++ i) h2
      exact ⟨impF, pyJoin "\n" stubs, h1, h3, rfl⟩

/-- Witness for C10 at a concrete empty introspection module: the stub is
exactly the seeded import line. -/
theorem c10_witness :
    ∃ impF body, "typing" ∈ impF ∧
      "import typing" ∈ (pySorted impF).map (fun i => "import " ++ i) ∧
      ("import typing" ++ "\n" : String) =
        pyJoin "\n" ((pySorted impF).map (fun i => "import " ++ i)) ++ "\n" ++ body :=
  c10_theorem ⟨"Gdk", true, false, [], []⟩ ("import typing" ++ "\n") (by rfl)
